import Mathlib

/-!
# AWS SDK example managers: polling loops and S3 transfers

A shallow embedding of `DynamoDBManager::WaitForTableState`
(`src/lib/DynamoDBManager.cpp`), `EC2Manager::GetInstanceState` and
`EC2Manager::WaitForInstanceState` (`src/lib/EC2Manager.cpp`) and of
`S3Manager::UploadFile`, `UploadText` and `DownloadFile`
(`src/lib/S3Manager.cpp`), and of the methods of the three managers that send a
single request (`ListBuckets`, `CreateBucket`, `DeleteBucket`, `DeleteObject`,
`ListObjects`; `ListInstances`, `StartInstance`, `StopInstance`, `LaunchInstance`,
`TerminateInstance`; `CreateTable`, `PutItem`, `GetItem`, `ScanTable`, `DeleteItem`,
`DeleteTable`).

Modelling conventions.

* Every method returns its C++ return value together with the chronological
  list of its observable actions (`Event`): SDK client requests, calls of
  `std::this_thread::sleep_for`, and lines written to `std::cout` / `std::cerr`.
* The SDK client of a polling loop is the stream of outcomes it hands back:
  `client k` is the outcome of the `k`-th request (counted from 0) issued
  during the call.
* The C++ `int` variables `maxWaitSeconds` and `waitTimeSeconds` are integers
  (`Int`), and `waitTimeSeconds += 5` is 32-bit addition (`wrapInt32`): when the
  exact sum exceeds 2147483647, which is undefined behaviour in C++, the counter
  takes the two's complement value the machine addition produces and becomes
  negative.
* A polling loop need not return, so it is run for a number `fuel` of iterations:
  the result is `some b` when the C++ function returns `b` within `fuel`
  iterations, and `none` when it is still running after them; the trace holds the
  actions performed so far.
* SDK enumerations and their name mappers are not part of the repository; they
  are parameters of the definitions.
-/

namespace awsexamples

/-! ## Observable actions -/

/-- Observable actions of a manager method, parameterised by the type of SDK requests. -/
inductive Event (Request : Type) where
  | request (r : Request)
  | sleep (seconds : Nat)
  | cout (text : String)
  | cerr (text : String)
  deriving DecidableEq, Repr

/-- Result of running a method: the returned value and the actions performed, in order. -/
structure Run (Request : Type) (α : Type) where
  result : α
  trace : List (Event Request)
  deriving Repr

/-- The run `r` preceded by the actions `pre`. -/
def Run.after {Request α : Type} (pre : List (Event Request)) (r : Run Request α) :
    Run Request α :=
  ⟨r.result, pre ++ r.trace⟩

/-- Number of SDK requests in a trace. -/
def requests {Request : Type} : List (Event Request) → Nat
  | [] => 0
  | .request _ :: t => requests t + 1
  | _ :: t => requests t

/-- Durations (in seconds) of the sleeps in a trace, in order. -/
def sleepDurations {Request : Type} : List (Event Request) → List Nat
  | [] => []
  | .sleep s :: t => s :: sleepDurations t
  | _ :: t => sleepDurations t

/-- The SDK requests of a trace, in order. -/
def requestsOf {Request : Type} : List (Event Request) → List Request
  | [] => []
  | .request r :: t => r :: requestsOf t
  | _ :: t => requestsOf t

/-- Total time slept in a trace, in seconds. -/
def totalSleep {Request : Type} (t : List (Event Request)) : Nat :=
  (sleepDurations t).sum

/-- The actions that follow request number `k` (counted from 0) in a trace;
empty when the trace has no such request. -/
def eventsAfterRequest {Request : Type} : Nat → List (Event Request) → List (Event Request)
  | _, [] => []
  | k, .request _ :: t =>
    match k with
    | 0 => t
    | k + 1 => eventsAfterRequest k t
  | k, _ :: t => eventsAfterRequest k t

/-- What a polling loop does over time: it polls (sends a request) or it sleeps. -/
inductive Tick where
  | poll
  | sleep (seconds : Nat)
  deriving DecidableEq, Repr

/-- The polls and sleeps of a trace, in order. -/
def timeline {Request : Type} : List (Event Request) → List Tick
  | [] => []
  | .request _ :: t => Tick.poll :: timeline t
  | .sleep s :: t => Tick.sleep s :: timeline t
  | _ :: t => timeline t

/-- The timeline of `n` polls at a fixed interval: each poll is followed by one sleep of
`interval` seconds. -/
def fixedIntervalTimeline (interval : Nat) : Nat → List Tick
  | 0 => []
  | n + 1 => Tick.poll :: Tick.sleep interval :: fixedIntervalTimeline interval n

/-! ## SDK outcomes -/

/-- An SDK error (`Aws::Client::AWSError`): its error type and message. -/
structure AWSError (ErrorType : Type) where
  errorType : ErrorType
  message : String
  deriving DecidableEq, Repr

/-- An SDK outcome (`Aws::Utils::Outcome`): a result on success, an error otherwise. -/
inductive Outcome (R E : Type) where
  | success (result : R)
  | failure (error : E)
  deriving DecidableEq, Repr

/-- Mirror of `outcome.IsSuccess()`. -/
def Outcome.IsSuccess {R E : Type} : Outcome R E → Bool
  | .success _ => true
  | .failure _ => false

/-! ## Machine integers -/

/-- Value stored in a 32-bit `int` when the exact result of an addition is `x`: two's
complement wrap-around into `-2147483648 .. 2147483647`. -/
def wrapInt32 (x : Int) : Int :=
  (x + 2147483648) % 4294967296 - 2147483648

/-! ## DynamoDBManager -/

/-- Error types of the DynamoDB client: the one the code tests for, and all others. -/
inductive DynamoDBErrors where
  | RESOURCE_NOT_FOUND
  | OTHER (code : Nat)
  deriving DecidableEq, Repr

/-- The `DescribeTableRequest` built by `WaitForTableState`. -/
structure DescribeTableRequest where
  tableName : String
  deriving DecidableEq, Repr

/-- Outcome of `client.DescribeTable`: on success the table status of the description. -/
abbrev DescribeTableOutcome (TableStatus : Type) :=
  Outcome TableStatus (AWSError DynamoDBErrors)

/-- The `while` loop of `DynamoDBManager::WaitForTableState`, entered with the current
values of `tableInTargetState` and `waitTimeSeconds`, `calls` requests having been issued,
and run for at most `fuel` iterations. -/
def WaitForTableState.loop {TableStatus : Type}
    (GetNameForTableStatus : TableStatus → String)
    (client : Nat → DescribeTableOutcome TableStatus)
    (request : DescribeTableRequest) (targetState : String) (maxWaitSeconds : Int) :
    Nat → Bool → Nat → Int → Run DescribeTableRequest (Option Bool)
  | 0, tableInTargetState, _, waitTimeSeconds =>
    if tableInTargetState = false ∧ waitTimeSeconds < maxWaitSeconds then
      -- the loop goes on: still running
      ⟨none, []⟩
    else
      ⟨some tableInTargetState, []⟩
  | fuel + 1, tableInTargetState, calls, waitTimeSeconds =>
    if tableInTargetState = false ∧ waitTimeSeconds < maxWaitSeconds then
      match client calls with
      | .success tableStatus =>
        if GetNameForTableStatus tableStatus = targetState then
          -- tableInTargetState = true; break
          ⟨some true, [.request request,
                       .cout ("Table status: " ++ GetNameForTableStatus tableStatus)]⟩
        else
          (WaitForTableState.loop GetNameForTableStatus client request targetState
              maxWaitSeconds fuel tableInTargetState (calls + 1)
              (wrapInt32 (waitTimeSeconds + 5))).after
            [.request request,
             .cout ("Table status: " ++ GetNameForTableStatus tableStatus),
             .sleep 5]
      | .failure error =>
        if targetState = "DELETED" ∧
            error.errorType = DynamoDBErrors.RESOURCE_NOT_FOUND then
          -- tableInTargetState = true; break
          ⟨some true, [.request request]⟩
        else
          -- return false
          ⟨some false, [.request request,
                        .cerr ("Error checking table status: " ++ error.message)]⟩
    else
      ⟨some tableInTargetState, []⟩

/-- Mirror of `DynamoDBManager::WaitForTableState`, run for at most `fuel` iterations of
its loop. -/
def WaitForTableState {TableStatus : Type}
    (GetNameForTableStatus : TableStatus → String)
    (client : Nat → DescribeTableOutcome TableStatus)
    (tableName targetState : String) (maxWaitSeconds : Int) (fuel : Nat) :
    Run DescribeTableRequest (Option Bool) :=
  WaitForTableState.loop GetNameForTableStatus client ⟨tableName⟩ targetState
    maxWaitSeconds fuel false 0 0

/-- A `DescribeTable` outcome shows the target: success with a status named `targetState`,
or error `RESOURCE_NOT_FOUND` while `targetState` is `"DELETED"`. -/
def tableReached {TableStatus : Type} (GetNameForTableStatus : TableStatus → String)
    (targetState : String) : DescribeTableOutcome TableStatus → Bool
  | .success tableStatus => decide (GetNameForTableStatus tableStatus = targetState)
  | .failure error =>
    decide (targetState = "DELETED" ∧ error.errorType = DynamoDBErrors.RESOURCE_NOT_FOUND)

/-- A `DescribeTable` outcome ends the loop: the target status was read, or the call failed. -/
def tableEndsLoop {TableStatus : Type} (GetNameForTableStatus : TableStatus → String)
    (targetState : String) : DescribeTableOutcome TableStatus → Bool
  | .success tableStatus => decide (GetNameForTableStatus tableStatus = targetState)
  | .failure _ => true

/-! ## EC2Manager -/

/-- A `Filter` of a `DescribeInstancesRequest`. -/
structure Filter where
  name : String
  values : List String
  deriving DecidableEq, Repr

/-- The `DescribeInstancesRequest` built by `GetInstanceState`. -/
structure DescribeInstancesRequest where
  filters : List Filter
  deriving DecidableEq, Repr

/-- An instance of a reservation; `stateName` is `instance.GetState().GetName()`. -/
structure Instance (InstanceStateName : Type) where
  instanceId : String
  stateName : InstanceStateName
  deriving DecidableEq, Repr

/-- A reservation of a `DescribeInstances` result. -/
structure Reservation (InstanceStateName : Type) where
  instances : List (Instance InstanceStateName)
  deriving DecidableEq, Repr

/-- Outcome of `ec2Client.DescribeInstances`: on success the reservations of the result. -/
abbrev DescribeInstancesOutcome (InstanceStateName EC2Errors : Type) :=
  Outcome (List (Reservation InstanceStateName)) (AWSError EC2Errors)

/-- Mirror of `EC2Manager::GetInstanceState`, issuing request number `calls` of the client:
the name of the state of the first instance of the first reservation, or the empty string
when the call fails or reports no instance. -/
def GetInstanceState {InstanceStateName EC2Errors : Type}
    (GetNameForInstanceStateName : InstanceStateName → String)
    (client : Nat → DescribeInstancesOutcome InstanceStateName EC2Errors)
    (calls : Nat) (instanceId : String) : Run DescribeInstancesRequest String :=
  match client calls with
  | .success reservations =>
    match reservations with
    | reservation :: _ =>
      match reservation.instances with
      | inst :: _ =>
        ⟨GetNameForInstanceStateName inst.stateName,
         [.request ⟨[⟨"instance-id", [instanceId]⟩]⟩]⟩
      | [] =>
        ⟨"", [.request ⟨[⟨"instance-id", [instanceId]⟩]⟩,
              .cerr ("Could not find instance: " ++ instanceId)]⟩
    | [] =>
      ⟨"", [.request ⟨[⟨"instance-id", [instanceId]⟩]⟩,
            .cerr ("Could not find instance: " ++ instanceId)]⟩
  | .failure error =>
    ⟨"", [.request ⟨[⟨"instance-id", [instanceId]⟩]⟩,
          .cerr ("Error getting instance state: " ++ error.message)]⟩

/-- The `while` loop of `EC2Manager::WaitForInstanceState`, entered with the current values
of `instanceInTargetState` and `waitTimeSeconds`, `calls` requests having been issued, and
run for at most `fuel` iterations. -/
def WaitForInstanceState.loop {InstanceStateName EC2Errors : Type}
    (GetNameForInstanceStateName : InstanceStateName → String)
    (client : Nat → DescribeInstancesOutcome InstanceStateName EC2Errors)
    (instanceId targetState : String) (maxWaitSeconds : Int) :
    Nat → Bool → Nat → Int → Run DescribeInstancesRequest (Option Bool)
  | 0, instanceInTargetState, _, waitTimeSeconds =>
    if instanceInTargetState = false ∧ waitTimeSeconds < maxWaitSeconds then
      -- the loop goes on: still running
      ⟨none, []⟩
    else
      ⟨some instanceInTargetState, []⟩
  | fuel + 1, instanceInTargetState, calls, waitTimeSeconds =>
    if instanceInTargetState = false ∧ waitTimeSeconds < maxWaitSeconds then
      if (GetInstanceState GetNameForInstanceStateName client calls instanceId).result
          = targetState then
        -- instanceInTargetState = true; break
        ⟨some true,
         (GetInstanceState GetNameForInstanceStateName client calls instanceId).trace⟩
      else if (GetInstanceState GetNameForInstanceStateName client calls instanceId).result
          = "" then
        -- Error occurred: return false
        ⟨some false,
         (GetInstanceState GetNameForInstanceStateName client calls instanceId).trace⟩
      else
        (WaitForInstanceState.loop GetNameForInstanceStateName client instanceId targetState
            maxWaitSeconds fuel instanceInTargetState (calls + 1)
            (wrapInt32 (waitTimeSeconds + 10))).after
          ((GetInstanceState GetNameForInstanceStateName client calls instanceId).trace ++
            [.cout ("Instance " ++ instanceId ++ " state: " ++
                (GetInstanceState GetNameForInstanceStateName client calls
                  instanceId).result ++
                " (waiting for " ++ targetState ++ ")"),
             .sleep 10])
    else
      ⟨some instanceInTargetState, []⟩

/-- Mirror of `EC2Manager::WaitForInstanceState`, run for at most `fuel` iterations of its
loop. -/
def WaitForInstanceState {InstanceStateName EC2Errors : Type}
    (GetNameForInstanceStateName : InstanceStateName → String)
    (client : Nat → DescribeInstancesOutcome InstanceStateName EC2Errors)
    (instanceId targetState : String) (maxWaitSeconds : Int) (fuel : Nat) :
    Run DescribeInstancesRequest (Option Bool) :=
  WaitForInstanceState.loop GetNameForInstanceStateName client instanceId targetState
    maxWaitSeconds fuel false 0 0

/-- A poll of `WaitForInstanceState` failed: `DescribeInstances` returned an error, or a
result without a reservation, or a first reservation without an instance. -/
def pollFailed {InstanceStateName EC2Errors : Type} :
    DescribeInstancesOutcome InstanceStateName EC2Errors → Bool
  | .failure _ => true
  | .success [] => true
  | .success (reservation :: _) => reservation.instances.isEmpty

/-! ## S3Manager -/

/-- The `PutObjectRequest` built by `UploadFile` and `UploadText`; `body` is the content
of the stream given to `SetBody`. -/
structure PutObjectRequest where
  bucket : String
  key : String
  body : String
  deriving DecidableEq, Repr

/-- The `GetObjectRequest` built by `DownloadFile`. -/
structure GetObjectRequest where
  bucket : String
  key : String
  deriving DecidableEq, Repr

/-- Requests sent to the S3 client by the modelled methods. -/
inductive S3Request where
  | putObject (r : PutObjectRequest)
  | getObject (r : GetObjectRequest)
  deriving DecidableEq, Repr

/-- The S3 client and the service behind it, as a state machine on a service state `σ`:
each call returns its outcome and the next state.  A successful `GetObject` carries the
body of the response. -/
structure S3Client (σ S3Errors : Type) where
  PutObject : σ → PutObjectRequest → Outcome Unit (AWSError S3Errors) × σ
  GetObject : σ → GetObjectRequest → Outcome String (AWSError S3Errors) × σ

/-- A local file: its bytes and whether it can be opened for reading and for writing. -/
structure File where
  data : String
  readable : Bool
  writable : Bool
  deriving DecidableEq, Repr

/-- The local file system: the file at each path, if any, and whether a file can be
created at a path that has none. -/
structure FileSystem where
  file : String → Option File
  creatable : String → Bool

/-- Opening `path` with `std::ios_base::in | std::ios_base::binary`: the bytes of the
file when the stream is `good()`, `none` when the open fails. -/
def FileSystem.openRead (fs : FileSystem) (path : String) : Option String :=
  match fs.file path with
  | some f => if f.readable then some f.data else none
  | none => none

/-- Whether `std::ofstream(path, std::ios::binary)` opens `path`. -/
def FileSystem.canOpenWrite (fs : FileSystem) (path : String) : Bool :=
  match fs.file path with
  | some f => f.writable
  | none => fs.creatable path

/-- Effect of `std::ofstream localFile(path, std::ios::binary); localFile << body`:
when the open succeeds the file is truncated and receives `body`; when it fails the
stream is in a failed state, the insertion does nothing and no file changes. -/
def FileSystem.ofstreamWrite (fs : FileSystem) (path : String) (body : String) : FileSystem :=
  if fs.canOpenWrite path then
    { fs with
      file := fun p =>
        if p = path then
          some ⟨body, (match fs.file path with | some f => f.readable | none => true), true⟩
        else fs.file p }
  else fs

/-- Result of an `S3Manager` method: return value, actions, and the service state and
file system it leaves. -/
structure S3Run (σ : Type) where
  result : Bool
  trace : List (Event S3Request)
  service : σ
  files : FileSystem

/-- Mirror of `S3Manager::UploadFile`. -/
def UploadFile {σ S3Errors : Type} (s3Client : S3Client σ S3Errors) (service : σ)
    (fs : FileSystem) (bucketName keyName filePath : String) : S3Run σ :=
  match fs.openRead filePath with
  | none =>
    -- !inputData->good()
    ⟨false, [.cerr ("Failed to open file: " ++ filePath)], service, fs⟩
  | some data =>
    match s3Client.PutObject service ⟨bucketName, keyName, data⟩ with
    | (.success _, service') =>
      ⟨true, [.request (.putObject ⟨bucketName, keyName, data⟩),
              .cout ("Successfully uploaded: " ++ keyName)], service', fs⟩
    | (.failure error, service') =>
      ⟨false, [.request (.putObject ⟨bucketName, keyName, data⟩),
               .cerr ("Upload error: " ++ error.message)], service', fs⟩

/-- Mirror of `S3Manager::UploadText`. -/
def UploadText {σ S3Errors : Type} (s3Client : S3Client σ S3Errors) (service : σ)
    (fs : FileSystem) (bucketName keyName content : String) : S3Run σ :=
  match s3Client.PutObject service ⟨bucketName, keyName, content⟩ with
  | (.success _, service') =>
    ⟨true, [.request (.putObject ⟨bucketName, keyName, content⟩),
            .cout ("Successfully uploaded text content as: " ++ keyName)], service', fs⟩
  | (.failure error, service') =>
    ⟨false, [.request (.putObject ⟨bucketName, keyName, content⟩),
             .cerr ("Text upload error: " ++ error.message)], service', fs⟩

/-- Mirror of `S3Manager::DownloadFile`. -/
def DownloadFile {σ S3Errors : Type} (s3Client : S3Client σ S3Errors) (service : σ)
    (fs : FileSystem) (bucketName keyName localPath : String) : S3Run σ :=
  match s3Client.GetObject service ⟨bucketName, keyName⟩ with
  | (.success body, service') =>
    ⟨true, [.request (.getObject ⟨bucketName, keyName⟩),
            .cout ("Successfully downloaded " ++ keyName ++ " to " ++ localPath)],
     service', fs.ofstreamWrite localPath body⟩
  | (.failure error, service') =>
    ⟨false, [.request (.getObject ⟨bucketName, keyName⟩),
             .cerr ("Download error: " ++ error.message)], service', fs⟩

/-- A store that returns for a key the body last put under it: every `PutObject` succeeds
and records the body under its bucket and key, `GetObject` returns the recorded body and
fails when there is none. -/
def objectStore : S3Client (String → String → Option String) Unit where
  PutObject := fun store r =>
    (.success (), fun b k => if b = r.bucket ∧ k = r.key then some r.body else store b k)
  GetObject := fun store r =>
    match store r.bucket r.key with
    | some body => (.success body, store)
    | none => (.failure ⟨(), "The specified key does not exist."⟩, store)

/-! ## Concrete clients and file systems -/

/-- A table reported `CREATING` by the first two polls and `ACTIVE` afterwards. -/
def creatingThenActive : Nat → DescribeTableOutcome String :=
  fun k => if k < 2 then .success "CREATING" else .success "ACTIVE"

/-- A table that every poll reports `CREATING`. -/
def alwaysCreating : Nat → DescribeTableOutcome String :=
  fun _ => .success "CREATING"

/-- A table reported `DELETING` by the first poll and not found afterwards. -/
def deletingThenGone : Nat → DescribeTableOutcome String :=
  fun k =>
    if k < 1 then .success "DELETING"
    else .failure ⟨.RESOURCE_NOT_FOUND, "Requested resource not found"⟩

/-- An EC2 client whose every `DescribeInstances` call fails. -/
def describeFails : Nat → DescribeInstancesOutcome String Unit :=
  fun _ => .failure ⟨(), "Request has expired"⟩

/-- An EC2 client that reports no reservation for the instance id. -/
def noInstance : Nat → DescribeInstancesOutcome String Unit :=
  fun _ => .success []

/-- An EC2 client that reports the instance `pending` at every poll. -/
def alwaysPending : Nat → DescribeInstancesOutcome String Unit :=
  fun _ => .success [⟨[⟨"i-0abc", "pending"⟩]⟩]

/-- An EC2 client that reports the instance `pending` once and `running` afterwards. -/
def pendingThenRunning : Nat → DescribeInstancesOutcome String Unit :=
  fun k =>
    if k < 1 then .success [⟨[⟨"i-0abc", "pending"⟩]⟩]
    else .success [⟨[⟨"i-0abc", "running"⟩]⟩]

/-- An EC2 client that reports the instance `pending` at the first `n` polls and `running`
afterwards. -/
def pendingUntil (n : Nat) : Nat → DescribeInstancesOutcome String Unit :=
  fun k =>
    if k < n then .success [⟨[⟨"i-0abc", "pending"⟩]⟩]
    else .success [⟨[⟨"i-0abc", "running"⟩]⟩]

/-- An empty object store. -/
def emptyStore : String → String → Option String :=
  fun _ _ => none

/-- A file system with a readable file `in.txt` and a read-only file `out.txt`; new files
can be created anywhere. -/
def sampleFiles : FileSystem where
  file := fun p =>
    if p = "in.txt" then some ⟨"payload", true, true⟩
    else if p = "out.txt" then some ⟨"old", true, false⟩
    else none
  creatable := fun _ => true

/-! ## Single-request methods

Each method below builds one request, hands it to one operation of its SDK client and
reports the outcome.  The client operation is a parameter `client`: the function from the
request to the outcome the SDK returns for it. -/

/-! ### S3Manager -/

/-- A bucket of a `ListBuckets` result. -/
structure Bucket (DateTime : Type) where
  name : String
  creationDate : DateTime
  deriving DecidableEq, Repr

/-- Mirror of `S3Manager::ListBuckets`; `ToGmtString` is the SDK formatter of dates in
ISO 8601, and the client operation takes no request object. -/
def ListBuckets {DateTime S3Errors : Type} (ToGmtString : DateTime → String)
    (client : Unit → Outcome (List (Bucket DateTime)) (AWSError S3Errors)) : Run Unit Unit :=
  match client () with
  | .success buckets =>
    ⟨(), .request () :: .cout "Your S3 buckets:" ::
      buckets.map (fun bucket =>
        .cout ("  " ++ bucket.name ++ " (created " ++ ToGmtString bucket.creationDate ++ ")"))⟩
  | .failure error =>
    ⟨(), [.request (), .cerr ("ListBuckets error: " ++ error.message)]⟩

/-- The `CreateBucketConfiguration` of a `CreateBucketRequest`; `none` is a location
constraint that has not been set. -/
structure CreateBucketConfiguration (BucketLocationConstraint : Type) where
  locationConstraint : Option BucketLocationConstraint
  deriving DecidableEq, Repr

/-- The `CreateBucketRequest` built by `CreateBucket`; `none` is a configuration that has
not been set. -/
structure CreateBucketRequest (BucketLocationConstraint : Type) where
  bucket : String
  createBucketConfiguration : Option (CreateBucketConfiguration BucketLocationConstraint)
  deriving DecidableEq, Repr

/-- The location constraint a `CreateBucketRequest` carries, if any. -/
def CreateBucketRequest.GetLocationConstraint {BucketLocationConstraint : Type}
    (request : CreateBucketRequest BucketLocationConstraint) :
    Option BucketLocationConstraint :=
  match request.createBucketConfiguration with
  | some configuration => configuration.locationConstraint
  | none => none

/-- Default value of the parameter `region` of `S3Manager::CreateBucket` (`S3Manager.h`). -/
def CreateBucket.defaultRegion : String := "us-west-2"

/-- The request built by `S3Manager::CreateBucket`. -/
def CreateBucket.request {BucketLocationConstraint : Type}
    (GetBucketLocationConstraintForName : String → BucketLocationConstraint)
    (bucketName region : String) : CreateBucketRequest BucketLocationConstraint :=
  if region ≠ "us-east-1" then
    ⟨bucketName, some ⟨some (GetBucketLocationConstraintForName region)⟩⟩
  else
    ⟨bucketName, none⟩

/-- Mirror of `S3Manager::CreateBucket`. -/
def CreateBucket {BucketLocationConstraint Result S3Errors : Type}
    (GetBucketLocationConstraintForName : String → BucketLocationConstraint)
    (client : CreateBucketRequest BucketLocationConstraint → Outcome Result (AWSError S3Errors))
    (bucketName region : String) : Run (CreateBucketRequest BucketLocationConstraint) Bool :=
  match client (CreateBucket.request GetBucketLocationConstraintForName bucketName region) with
  | .success _ =>
    ⟨true, [.request (CreateBucket.request GetBucketLocationConstraintForName bucketName region),
            .cout ("Created bucket: " ++ bucketName)]⟩
  | .failure error =>
    ⟨false, [.request (CreateBucket.request GetBucketLocationConstraintForName bucketName region),
             .cerr ("CreateBucket error: " ++ error.message)]⟩

/-- The `DeleteBucketRequest` built by `DeleteBucket`. -/
structure DeleteBucketRequest where
  bucket : String
  deriving DecidableEq, Repr

/-- Mirror of `S3Manager::DeleteBucket`. -/
def DeleteBucket {Result S3Errors : Type}
    (client : DeleteBucketRequest → Outcome Result (AWSError S3Errors))
    (bucketName : String) : Run DeleteBucketRequest Bool :=
  match client ⟨bucketName⟩ with
  | .success _ => ⟨true, [.request ⟨bucketName⟩, .cout ("Deleted bucket: " ++ bucketName)]⟩
  | .failure error =>
    ⟨false, [.request ⟨bucketName⟩, .cerr ("DeleteBucket error: " ++ error.message)]⟩

/-- The `DeleteObjectRequest` built by `DeleteObject`. -/
structure DeleteObjectRequest where
  bucket : String
  key : String
  deriving DecidableEq, Repr

/-- Mirror of `S3Manager::DeleteObject`. -/
def DeleteObject {Result S3Errors : Type}
    (client : DeleteObjectRequest → Outcome Result (AWSError S3Errors))
    (bucketName keyName : String) : Run DeleteObjectRequest Bool :=
  match client ⟨bucketName, keyName⟩ with
  | .success _ =>
    ⟨true, [.request ⟨bucketName, keyName⟩,
            .cout ("Successfully deleted " ++ keyName ++ " from " ++ bucketName)]⟩
  | .failure error =>
    ⟨false, [.request ⟨bucketName, keyName⟩,
             .cerr ("Delete object error: " ++ error.message)]⟩

/-- The `ListObjectsV2Request` built by `ListObjects`. -/
structure ListObjectsV2Request where
  bucket : String
  deriving DecidableEq, Repr

/-- An object of a `ListObjectsV2` result; `size` is a `long long`. -/
structure Object (DateTime : Type) where
  key : String
  size : Int
  lastModified : DateTime
  deriving DecidableEq, Repr

/-- Mirror of `S3Manager::ListObjects`; the result of the client operation is the list
`GetContents()` of the response. -/
def ListObjects {DateTime S3Errors : Type} (ToGmtString : DateTime → String)
    (client : ListObjectsV2Request → Outcome (List (Object DateTime)) (AWSError S3Errors))
    (bucketName : String) : Run ListObjectsV2Request Unit :=
  match client ⟨bucketName⟩ with
  | .success contents =>
    ⟨(), .request ⟨bucketName⟩ :: .cout ("Objects in " ++ bucketName ++ ":") ::
      contents.map (fun object =>
        .cout ("  " ++ object.key ++ " - Size: " ++ toString object.size ++ " bytes" ++
          " - Last Modified: " ++ ToGmtString object.lastModified))⟩
  | .failure error =>
    ⟨(), [.request ⟨bucketName⟩, .cerr ("ListObjects error: " ++ error.message)]⟩

/-! ### EC2Manager -/

/-- A tag of an instance. -/
structure Tag where
  key : String
  value : String
  deriving DecidableEq, Repr

/-- An instance as `ListInstances` reads it: the fields of `Instance`, the instance type
as a string and the tags. -/
structure InstanceDetails (InstanceStateName : Type) extends Instance InstanceStateName where
  instanceTypeAsString : String
  tags : List Tag
  deriving Repr

/-- A reservation as `ListInstances` reads it. -/
structure ReservationDetails (InstanceStateName : Type) where
  instances : List (InstanceDetails InstanceStateName)
  deriving Repr

/-- The lines `ListInstances` prints for one instance. -/
def ListInstances.printInstance {InstanceStateName Request : Type}
    (GetNameForInstanceStateName : InstanceStateName → String)
    (inst : InstanceDetails InstanceStateName) : List (Event Request) :=
  [.cout ("Instance ID: " ++ inst.instanceId),
   .cout ("State: " ++ GetNameForInstanceStateName inst.stateName),
   .cout ("Type: " ++ inst.instanceTypeAsString),
   .cout ("Tags: " ++ String.join (inst.tags.map (fun tag => tag.key ++ "=" ++ tag.value ++ " "))),
   .cout "---"]

/-- Mirror of `EC2Manager::ListInstances`. -/
def ListInstances {InstanceStateName EC2Errors : Type}
    (GetNameForInstanceStateName : InstanceStateName → String)
    (client : DescribeInstancesRequest →
      Outcome (List (ReservationDetails InstanceStateName)) (AWSError EC2Errors)) :
    Run DescribeInstancesRequest Unit :=
  match client ⟨[]⟩ with
  | .success reservations =>
    if reservations.isEmpty then
      ⟨(), [.request ⟨[]⟩, .cout "No EC2 instances found."]⟩
    else
      ⟨(), .request ⟨[]⟩ :: .cout "EC2 Instances:" ::
        (reservations.map (fun reservation =>
          (reservation.instances.map
            (ListInstances.printInstance GetNameForInstanceStateName)).flatten)).flatten⟩
  | .failure error =>
    ⟨(), [.request ⟨[]⟩, .cerr ("Error: " ++ error.message)]⟩

/-- The `StartInstancesRequest` built by `StartInstance`. -/
structure StartInstancesRequest where
  instanceIds : List String
  deriving DecidableEq, Repr

/-- Mirror of `EC2Manager::StartInstance`. -/
def StartInstance {Result EC2Errors : Type}
    (client : StartInstancesRequest → Outcome Result (AWSError EC2Errors))
    (instanceId : String) : Run StartInstancesRequest Bool :=
  match client ⟨[instanceId]⟩ with
  | .success _ =>
    ⟨true, [.request ⟨[instanceId]⟩, .cout ("Instance " ++ instanceId ++ " start initiated")]⟩
  | .failure error =>
    ⟨false, [.request ⟨[instanceId]⟩,
             .cerr ("Error starting instance: " ++ error.message)]⟩

/-- The `StopInstancesRequest` built by `StopInstance`. -/
structure StopInstancesRequest where
  instanceIds : List String
  deriving DecidableEq, Repr

/-- Mirror of `EC2Manager::StopInstance`. -/
def StopInstance {Result EC2Errors : Type}
    (client : StopInstancesRequest → Outcome Result (AWSError EC2Errors))
    (instanceId : String) : Run StopInstancesRequest Bool :=
  match client ⟨[instanceId]⟩ with
  | .success _ =>
    ⟨true, [.request ⟨[instanceId]⟩, .cout ("Instance " ++ instanceId ++ " stop initiated")]⟩
  | .failure error =>
    ⟨false, [.request ⟨[instanceId]⟩,
             .cerr ("Error stopping instance: " ++ error.message)]⟩

/-- The `RunInstancesRequest` built by `LaunchInstance`; `minCount` and `maxCount` are
`int`, and `keyName` is `none` when `SetKeyName` is not called. -/
structure RunInstancesRequest (InstanceType : Type) where
  imageId : String
  instanceType : InstanceType
  minCount : Int
  maxCount : Int
  keyName : Option String
  deriving DecidableEq, Repr

/-- The request built by `EC2Manager::LaunchInstance`. -/
def LaunchInstance.request {InstanceType : Type}
    (GetInstanceTypeForName : String → InstanceType)
    (amiId instanceType keyName : String) : RunInstancesRequest InstanceType :=
  ⟨amiId, GetInstanceTypeForName instanceType, 1, 1,
   if keyName ≠ "" then some keyName else none⟩

/-- Mirror of `EC2Manager::LaunchInstance`; the result of the client operation is the
list `GetInstances()` of the response. -/
def LaunchInstance {InstanceType InstanceStateName EC2Errors : Type}
    (GetInstanceTypeForName : String → InstanceType)
    (client : RunInstancesRequest InstanceType →
      Outcome (List (Instance InstanceStateName)) (AWSError EC2Errors))
    (amiId instanceType keyName : String) : Run (RunInstancesRequest InstanceType) String :=
  match client (LaunchInstance.request GetInstanceTypeForName amiId instanceType keyName) with
  | .success instances =>
    match instances with
    | inst :: _ =>
      ⟨inst.instanceId,
       [.request (LaunchInstance.request GetInstanceTypeForName amiId instanceType keyName),
        .cout ("Launched instance " ++ inst.instanceId)]⟩
    | [] =>
      ⟨"",
       [.request (LaunchInstance.request GetInstanceTypeForName amiId instanceType keyName),
        .cerr "Error: No instances were launched"]⟩
  | .failure error =>
    ⟨"",
     [.request (LaunchInstance.request GetInstanceTypeForName amiId instanceType keyName),
      .cerr ("Error launching instance: " ++ error.message)]⟩

/-- The `TerminateInstancesRequest` built by `TerminateInstance`. -/
structure TerminateInstancesRequest where
  instanceIds : List String
  deriving DecidableEq, Repr

/-- Mirror of `EC2Manager::TerminateInstance`. -/
def TerminateInstance {Result EC2Errors : Type}
    (client : TerminateInstancesRequest → Outcome Result (AWSError EC2Errors))
    (instanceId : String) : Run TerminateInstancesRequest Bool :=
  match client ⟨[instanceId]⟩ with
  | .success _ =>
    ⟨true, [.request ⟨[instanceId]⟩,
            .cout ("Instance " ++ instanceId ++ " termination initiated")]⟩
  | .failure error =>
    ⟨false, [.request ⟨[instanceId]⟩,
             .cerr ("Error terminating instance: " ++ error.message)]⟩

/-! ### DynamoDBManager -/

/-- Scalar attribute types of the DynamoDB SDK. -/
inductive ScalarAttributeType where
  | S
  | N
  | B
  deriving DecidableEq, Repr

/-- Key types of the DynamoDB SDK. -/
inductive KeyType where
  | HASH
  | RANGE
  deriving DecidableEq, Repr

/-- An `AttributeDefinition` of a `CreateTableRequest`. -/
structure AttributeDefinition where
  attributeName : String
  attributeType : ScalarAttributeType
  deriving DecidableEq, Repr

/-- A `KeySchemaElement` of a `CreateTableRequest`. -/
structure KeySchemaElement where
  attributeName : String
  keyType : KeyType
  deriving DecidableEq, Repr

/-- A `ProvisionedThroughput`; the capacity units are `long long`. -/
structure ProvisionedThroughput where
  readCapacityUnits : Int
  writeCapacityUnits : Int
  deriving DecidableEq, Repr

/-- The `CreateTableRequest` built by `CreateTable`; `provisionedThroughput` is `none`
when it has not been set. -/
structure CreateTableRequest where
  tableName : String
  attributeDefinitions : List AttributeDefinition
  keySchema : List KeySchemaElement
  provisionedThroughput : Option ProvisionedThroughput
  deriving DecidableEq, Repr

/-- The request built by `DynamoDBManager::CreateTable`: to a new request, which has no
attribute definition and no key schema element, one of each is added, and the throughput
is set. -/
def CreateTable.request (tableName : String) : CreateTableRequest :=
  ⟨tableName, [⟨"id", ScalarAttributeType.S⟩], [⟨"id", KeyType.HASH⟩], some ⟨5, 5⟩⟩

/-- Mirror of `DynamoDBManager::CreateTable`. -/
def CreateTable {Result : Type}
    (client : CreateTableRequest → Outcome Result (AWSError DynamoDBErrors))
    (tableName : String) : Run CreateTableRequest Bool :=
  match client (CreateTable.request tableName) with
  | .success _ =>
    ⟨true, [.request (CreateTable.request tableName),
            .cout ("Table " ++ tableName ++ " created successfully!")]⟩
  | .failure error =>
    ⟨false, [.request (CreateTable.request tableName),
             .cerr ("Error creating table: " ++ error.message)]⟩

/-- A DynamoDB `AttributeValue`: a string, a number (as a string), or a value of another
type. -/
inductive AttributeValue where
  | S (s : String)
  | N (n : String)
  | OTHER
  deriving DecidableEq, Repr

/-- Mirror of `AttributeValue::GetS()`: the string, empty for a value of another type. -/
def AttributeValue.GetS : AttributeValue → String
  | .S s => s
  | _ => ""

/-- Mirror of `AttributeValue::GetN()`: the number, empty for a value of another type. -/
def AttributeValue.GetN : AttributeValue → String
  | .N n => n
  | _ => ""

/-- An item: the attribute values by attribute name (`Aws::Map`). -/
abbrev Item := List (String × AttributeValue)

/-- Mirror of `item.at(key)`: `none` stands for the exception `std::out_of_range`. -/
def Item.lookupAt (item : Item) (key : String) : Option AttributeValue :=
  List.lookup key item

/-- The `PutItemRequest` built by `PutItem`. -/
structure PutItemRequest where
  tableName : String
  item : Item
  deriving DecidableEq, Repr

/-- The request built by `DynamoDBManager::PutItem`; `age` is an `int` and
`std::to_string(age)` is its decimal notation. -/
def PutItem.request (tableName id name : String) (age : Int) : PutItemRequest :=
  ⟨tableName, [("id", .S id), ("name", .S name), ("age", .N (toString age))]⟩

/-- Mirror of `DynamoDBManager::PutItem`. -/
def PutItem {Result : Type}
    (client : PutItemRequest → Outcome Result (AWSError DynamoDBErrors))
    (tableName id name : String) (age : Int) : Run PutItemRequest Bool :=
  match client (PutItem.request tableName id name age) with
  | .success _ =>
    ⟨true, [.request (PutItem.request tableName id name age),
            .cout "Item added successfully!"]⟩
  | .failure error =>
    ⟨false, [.request (PutItem.request tableName id name age),
             .cerr ("Error: " ++ error.message)]⟩

/-- The `GetItemRequest` built by `GetItem`. -/
structure GetItemRequest where
  tableName : String
  key : Item
  deriving DecidableEq, Repr

/-- Mirror of `DynamoDBManager::GetItem`; the result of the client operation is the item
of the response (empty when there is none).  The return value is `Except.error` when
`item.at` throws `std::out_of_range`; a line cut short by the exception is not recorded. -/
def GetItem (client : GetItemRequest → Outcome Item (AWSError DynamoDBErrors))
    (tableName id : String) : Run GetItemRequest (Except String Unit) :=
  match client ⟨tableName, [("id", .S id)]⟩ with
  | .success item =>
    if item ≠ [] then
      match item.lookupAt "id" with
      | none =>
        ⟨.error "std::out_of_range",
         [.request ⟨tableName, [("id", .S id)]⟩, .cout "Item found:"]⟩
      | some idAttr =>
        match item.lookupAt "name" with
        | none =>
          ⟨.error "std::out_of_range",
           [.request ⟨tableName, [("id", .S id)]⟩, .cout "Item found:",
            .cout ("ID: " ++ idAttr.GetS)]⟩
        | some nameAttr =>
          match item.lookupAt "age" with
          | none =>
            ⟨.error "std::out_of_range",
             [.request ⟨tableName, [("id", .S id)]⟩, .cout "Item found:",
              .cout ("ID: " ++ idAttr.GetS), .cout ("Name: " ++ nameAttr.GetS)]⟩
          | some ageAttr =>
            ⟨.ok (),
             [.request ⟨tableName, [("id", .S id)]⟩, .cout "Item found:",
              .cout ("ID: " ++ idAttr.GetS), .cout ("Name: " ++ nameAttr.GetS),
              .cout ("Age: " ++ ageAttr.GetN)]⟩
    else
      ⟨.ok (), [.request ⟨tableName, [("id", .S id)]⟩, .cout "Item not found"]⟩
  | .failure error =>
    ⟨.ok (), [.request ⟨tableName, [("id", .S id)]⟩, .cerr ("Error: " ++ error.message)]⟩

/-- The `ScanRequest` built by `ScanTable`. -/
structure ScanRequest where
  tableName : String
  deriving DecidableEq, Repr

/-- The `for` loop of `DynamoDBManager::ScanTable` over the remaining items: one line per
item, stopping with `Except.error` at the first item for which `item.at` throws. -/
def ScanTable.printItems {Request : Type} : List Item → Run Request (Except String Unit)
  | [] => ⟨.ok (), []⟩
  | item :: rest =>
    match item.lookupAt "id", item.lookupAt "name", item.lookupAt "age" with
    | some idAttr, some nameAttr, some ageAttr =>
      (ScanTable.printItems rest).after
        [.cout ("ID: " ++ idAttr.GetS ++ ", Name: " ++ nameAttr.GetS ++
          ", Age: " ++ ageAttr.GetN)]
    | _, _, _ => ⟨.error "std::out_of_range", []⟩

/-- Mirror of `DynamoDBManager::ScanTable`; the result of the client operation is the list
`GetItems()` of the response. -/
def ScanTable (client : ScanRequest → Outcome (List Item) (AWSError DynamoDBErrors))
    (tableName : String) : Run ScanRequest (Except String Unit) :=
  match client ⟨tableName⟩ with
  | .success items =>
    if items.isEmpty then
      ⟨.ok (), [.request ⟨tableName⟩, .cout ("Items in " ++ tableName ++ ":"),
                .cout "No items found in the table"]⟩
    else
      (ScanTable.printItems items).after
        [.request ⟨tableName⟩, .cout ("Items in " ++ tableName ++ ":")]
  | .failure error =>
    ⟨.ok (), [.request ⟨tableName⟩, .cerr ("Error: " ++ error.message)]⟩

/-- The `DeleteItemRequest` built by `DeleteItem`. -/
structure DeleteItemRequest where
  tableName : String
  key : Item
  deriving DecidableEq, Repr

/-- Mirror of `DynamoDBManager::DeleteItem`. -/
def DeleteItem {Result : Type}
    (client : DeleteItemRequest → Outcome Result (AWSError DynamoDBErrors))
    (tableName id : String) : Run DeleteItemRequest Bool :=
  match client ⟨tableName, [("id", .S id)]⟩ with
  | .success _ =>
    ⟨true, [.request ⟨tableName, [("id", .S id)]⟩, .cout "Item deleted successfully!"]⟩
  | .failure error =>
    ⟨false, [.request ⟨tableName, [("id", .S id)]⟩,
             .cerr ("Error deleting item: " ++ error.message)]⟩

/-- The `DeleteTableRequest` built by `DeleteTable`. -/
structure DeleteTableRequest where
  tableName : String
  deriving DecidableEq, Repr

/-- Mirror of `DynamoDBManager::DeleteTable`. -/
def DeleteTable {Result : Type}
    (client : DeleteTableRequest → Outcome Result (AWSError DynamoDBErrors))
    (tableName : String) : Run DeleteTableRequest Bool :=
  match client ⟨tableName⟩ with
  | .success _ =>
    ⟨true, [.request ⟨tableName⟩, .cout ("Table " ++ tableName ++ " deleted successfully!")]⟩
  | .failure error =>
    ⟨false, [.request ⟨tableName⟩, .cerr ("Error deleting table: " ++ error.message)]⟩

/-! ### Concrete client operations -/

/-- A `RunInstances` operation that always fails. -/
def launchFails : RunInstancesRequest String → Outcome (List (Instance String)) (AWSError Unit) :=
  fun _ => .failure ⟨(), "Insufficient capacity"⟩

/-- A `RunInstances` operation that succeeds without launching an instance. -/
def launchesNothing :
    RunInstancesRequest String → Outcome (List (Instance String)) (AWSError Unit) :=
  fun _ => .success []

/-- A `RunInstances` operation that launches the instance `i-0new` of the requested image. -/
def launchesOne :
    RunInstancesRequest String → Outcome (List (Instance String)) (AWSError Unit) :=
  fun _ => .success [⟨"i-0new", "pending"⟩]

/-- A `Scan` operation that returns two items, the second without the attribute `age`. -/
def scanTwoItems : ScanRequest → Outcome (List Item) (AWSError DynamoDBErrors) :=
  fun _ => .success
    [[("id", .S "user1"), ("name", .S "Alice Smith"), ("age", .N "28")],
     [("id", .S "user2"), ("name", .S "Bob Johnson")]]

/-! ## Traces -/

theorem requests_append {Request : Type} (a b : List (Event Request)) :
    requests (a ++ b) = requests a + requests b := by
  induction a with
  | nil => simp [requests]
  | cons e t ih =>
    cases e <;> rw [List.cons_append] <;> simp only [requests, ih]
    omega

theorem sleepDurations_append {Request : Type} (a b : List (Event Request)) :
    sleepDurations (a ++ b) = sleepDurations a ++ sleepDurations b := by
  induction a with
  | nil => simp [sleepDurations]
  | cons e t ih => cases e <;> simp [sleepDurations, ih]

theorem requests_after {Request α : Type} (pre : List (Event Request)) (r : Run Request α) :
    requests (r.after pre).trace = requests pre + requests r.trace := by
  simp [Run.after, requests_append]

theorem sleepDurations_after {Request α : Type} (pre : List (Event Request))
    (r : Run Request α) :
    sleepDurations (r.after pre).trace = sleepDurations pre ++ sleepDurations r.trace := by
  simp [Run.after, sleepDurations_append]

theorem result_after {Request α : Type} (pre : List (Event Request)) (r : Run Request α) :
    (r.after pre).result = r.result := rfl

/-! ## Machine integers -/

/-- An addition whose exact result fits an `int` is exact. -/
theorem wrapInt32_of_fits (x : Int) (hlo : -2147483648 ≤ x) (hhi : x ≤ 2147483647) :
    wrapInt32 x = x := by
  unfold wrapInt32
  omega

/-- An addition whose exact result exceeds the largest `int` wraps to a negative value. -/
theorem wrapInt32_of_above (x : Int) (hlo : 2147483648 ≤ x) (hhi : x ≤ 6442450943) :
    wrapInt32 x = x - 4294967296 := by
  unfold wrapInt32
  omega

/-- Wrapping after each addition or once at the end gives the same counter. -/
theorem wrapInt32_add (x d : Int) : wrapInt32 (wrapInt32 x + d) = wrapInt32 (x + d) := by
  unfold wrapInt32
  omega

theorem timeline_append {Request : Type} (a b : List (Event Request)) :
    timeline (a ++ b) = timeline a ++ timeline b := by
  induction a with
  | nil => simp [timeline]
  | cons e t ih => cases e <;> simp [timeline, ih]

theorem timeline_after {Request α : Type} (pre : List (Event Request)) (r : Run Request α) :
    timeline (r.after pre).trace = timeline pre ++ timeline r.trace := by
  simp [Run.after, timeline_append]

theorem eventsAfterRequest_zero_cons {Request : Type} (r : Request)
    (t : List (Event Request)) :
    eventsAfterRequest 0 (Event.request r :: t) = t := rfl

/-! ## The loop of `WaitForTableState`, one iteration at a time -/

section TableLoop

variable {TableStatus : Type} (GetNameForTableStatus : TableStatus → String)
  (client : Nat → DescribeTableOutcome TableStatus)
  (request : DescribeTableRequest) (targetState : String) (maxWaitSeconds : Int)

theorem WaitForTableState_loop_exit (fuel calls : Nat) (waitTimeSeconds : Int)
    (h : ¬ waitTimeSeconds < maxWaitSeconds) :
    WaitForTableState.loop GetNameForTableStatus client request targetState maxWaitSeconds
      fuel false calls waitTimeSeconds = ⟨some false, []⟩ := by
  cases fuel <;> simp [WaitForTableState.loop, h]

theorem WaitForTableState_loop_running (calls : Nat) (waitTimeSeconds : Int)
    (h : waitTimeSeconds < maxWaitSeconds) :
    WaitForTableState.loop GetNameForTableStatus client request targetState maxWaitSeconds
      0 false calls waitTimeSeconds = ⟨none, []⟩ := by
  simp [WaitForTableState.loop, h]

theorem WaitForTableState_loop_hit (fuel calls : Nat) (waitTimeSeconds : Int)
    (h : waitTimeSeconds < maxWaitSeconds) (tableStatus : TableStatus)
    (hc : client calls = .success tableStatus)
    (hs : GetNameForTableStatus tableStatus = targetState) :
    WaitForTableState.loop GetNameForTableStatus client request targetState maxWaitSeconds
      (fuel + 1) false calls waitTimeSeconds
      = ⟨some true, [.request request,
                     .cout ("Table status: " ++ GetNameForTableStatus tableStatus)]⟩ := by
  simp [WaitForTableState.loop, h, hc, hs]

theorem WaitForTableState_loop_miss (fuel calls : Nat) (waitTimeSeconds : Int)
    (h : waitTimeSeconds < maxWaitSeconds) (tableStatus : TableStatus)
    (hc : client calls = .success tableStatus)
    (hs : ¬ GetNameForTableStatus tableStatus = targetState) :
    WaitForTableState.loop GetNameForTableStatus client request targetState maxWaitSeconds
      (fuel + 1) false calls waitTimeSeconds
      = (WaitForTableState.loop GetNameForTableStatus client request targetState
          maxWaitSeconds fuel false (calls + 1) (wrapInt32 (waitTimeSeconds + 5))).after
          [.request request,
           .cout ("Table status: " ++ GetNameForTableStatus tableStatus),
           .sleep 5] := by
  simp [WaitForTableState.loop, h, hc, hs]

theorem WaitForTableState_loop_notFound (fuel calls : Nat) (waitTimeSeconds : Int)
    (h : waitTimeSeconds < maxWaitSeconds) (error : AWSError DynamoDBErrors)
    (hc : client calls = .failure error)
    (he : targetState = "DELETED" ∧ error.errorType = DynamoDBErrors.RESOURCE_NOT_FOUND) :
    WaitForTableState.loop GetNameForTableStatus client request targetState maxWaitSeconds
      (fuel + 1) false calls waitTimeSeconds = ⟨some true, [.request request]⟩ := by
  simp [WaitForTableState.loop, h, hc, he]

theorem WaitForTableState_loop_error (fuel calls : Nat) (waitTimeSeconds : Int)
    (h : waitTimeSeconds < maxWaitSeconds) (error : AWSError DynamoDBErrors)
    (hc : client calls = .failure error)
    (he : ¬ (targetState = "DELETED" ∧
      error.errorType = DynamoDBErrors.RESOURCE_NOT_FOUND)) :
    WaitForTableState.loop GetNameForTableStatus client request targetState maxWaitSeconds
      (fuel + 1) false calls waitTimeSeconds
      = ⟨some false, [.request request,
                      .cerr ("Error checking table status: " ++ error.message)]⟩ := by
  simp [WaitForTableState.loop, h, hc, he]

/-- Induction along the iterations of the loop of `WaitForTableState`. -/
theorem WaitForTableState_loop_induct (motive : Nat → Nat → Int → Prop)
    (exit : ∀ fuel calls w, ¬ w < maxWaitSeconds → motive fuel calls w)
    (running : ∀ calls w, w < maxWaitSeconds → motive 0 calls w)
    (hit : ∀ fuel calls w tableStatus, w < maxWaitSeconds →
      client calls = .success tableStatus →
      GetNameForTableStatus tableStatus = targetState → motive (fuel + 1) calls w)
    (miss : ∀ fuel calls w tableStatus, w < maxWaitSeconds →
      client calls = .success tableStatus →
      ¬ GetNameForTableStatus tableStatus = targetState →
      motive fuel (calls + 1) (wrapInt32 (w + 5)) → motive (fuel + 1) calls w)
    (notFound : ∀ fuel calls w error, w < maxWaitSeconds →
      client calls = .failure error →
      (targetState = "DELETED" ∧ error.errorType = DynamoDBErrors.RESOURCE_NOT_FOUND) →
      motive (fuel + 1) calls w)
    (failed : ∀ fuel calls w error, w < maxWaitSeconds →
      client calls = .failure error →
      ¬ (targetState = "DELETED" ∧ error.errorType = DynamoDBErrors.RESOURCE_NOT_FOUND) →
      motive (fuel + 1) calls w)
    (fuel calls : Nat) (w : Int) : motive fuel calls w := by
  induction fuel generalizing calls w with
  | zero =>
    by_cases h : w < maxWaitSeconds
    · exact running calls w h
    · exact exit 0 calls w h
  | succ fuel ih =>
    by_cases h : w < maxWaitSeconds
    · cases hc : client calls with
      | success tableStatus =>
        by_cases hs : GetNameForTableStatus tableStatus = targetState
        · exact hit fuel calls w tableStatus h hc hs
        · exact miss fuel calls w tableStatus h hc hs (ih _ _)
      | failure error =>
        by_cases he : targetState = "DELETED" ∧
            error.errorType = DynamoDBErrors.RESOURCE_NOT_FOUND
        · exact notFound fuel calls w error h hc he
        · exact failed fuel calls w error h hc he
    · exact exit (fuel + 1) calls w h

/-- A failed call ends the loop at once, for every budget and every counter value. -/
theorem WaitForTableState_loop_failure_stops (fuel calls : Nat) (waitTimeSeconds : Int) :
    ∀ (k : Nat) (error : AWSError DynamoDBErrors),
      k < requests (WaitForTableState.loop GetNameForTableStatus client request
        targetState maxWaitSeconds fuel false calls waitTimeSeconds).trace →
      client (calls + k) = .failure error →
      requests (WaitForTableState.loop GetNameForTableStatus client request
        targetState maxWaitSeconds fuel false calls waitTimeSeconds).trace = k + 1 ∧
      requests (eventsAfterRequest k (WaitForTableState.loop GetNameForTableStatus client
        request targetState maxWaitSeconds fuel false calls waitTimeSeconds).trace) = 0 ∧
      sleepDurations (eventsAfterRequest k (WaitForTableState.loop GetNameForTableStatus
        client request targetState maxWaitSeconds fuel false calls
        waitTimeSeconds).trace) = [] ∧
      (WaitForTableState.loop GetNameForTableStatus client request
        targetState maxWaitSeconds fuel false calls waitTimeSeconds).result
        = some (decide (targetState = "DELETED" ∧
            error.errorType = DynamoDBErrors.RESOURCE_NOT_FOUND)) := by
  refine WaitForTableState_loop_induct GetNameForTableStatus client targetState
    maxWaitSeconds (fun fuel calls w => ∀ (k : Nat) (error : AWSError DynamoDBErrors),
      k < requests (WaitForTableState.loop GetNameForTableStatus client request
        targetState maxWaitSeconds fuel false calls w).trace →
      client (calls + k) = .failure error →
      requests (WaitForTableState.loop GetNameForTableStatus client request
        targetState maxWaitSeconds fuel false calls w).trace = k + 1 ∧
      requests (eventsAfterRequest k (WaitForTableState.loop GetNameForTableStatus client
        request targetState maxWaitSeconds fuel false calls w).trace) = 0 ∧
      sleepDurations (eventsAfterRequest k (WaitForTableState.loop GetNameForTableStatus
        client request targetState maxWaitSeconds fuel false calls w).trace) = [] ∧
      (WaitForTableState.loop GetNameForTableStatus client request
        targetState maxWaitSeconds fuel false calls w).result
        = some (decide (targetState = "DELETED" ∧
            error.errorType = DynamoDBErrors.RESOURCE_NOT_FOUND)))
    ?_ ?_ ?_ ?_ ?_ ?_ fuel calls waitTimeSeconds
  · intro fuel calls w h k error hk hf
    rw [WaitForTableState_loop_exit _ _ _ _ _ _ _ _ h] at hk
    simp only [requests] at hk
    omega
  · intro calls w h k error hk hf
    rw [WaitForTableState_loop_running _ _ _ _ _ _ _ h] at hk
    simp only [requests] at hk
    omega
  · intro fuel calls w tableStatus h hc hs k error hk hf
    rw [WaitForTableState_loop_hit _ _ _ _ _ _ _ _ h _ hc hs] at hk
    simp only [requests] at hk
    have hk0 : k = 0 := by omega
    subst hk0
    rw [Nat.add_zero, hc] at hf
    cases hf
  · intro fuel calls w tableStatus h hc hs ih k error hk hf
    rw [WaitForTableState_loop_miss _ _ _ _ _ _ _ _ h _ hc hs] at hk ⊢
    rw [requests_after] at hk ⊢
    simp only [requests] at hk ⊢
    cases k with
    | zero =>
      rw [Nat.add_zero, hc] at hf
      cases hf
    | succ k =>
      rw [show calls + (k + 1) = calls + 1 + k by omega] at hf
      obtain ⟨h1, h2, h3, h4⟩ := ih k error (by omega) hf
      refine ⟨by omega, ?_, ?_, ?_⟩
      · simpa [Run.after, eventsAfterRequest] using h2
      · simpa [Run.after, eventsAfterRequest] using h3
      · simpa [Run.after] using h4
  · intro fuel calls w error' h hc he k error hk hf
    rw [WaitForTableState_loop_notFound _ _ _ _ _ _ _ _ h _ hc he] at hk ⊢
    simp only [requests] at hk
    have hk0 : k = 0 := by omega
    subst hk0
    rw [Nat.add_zero, hc] at hf
    cases hf
    simp [requests, eventsAfterRequest, sleepDurations, he]
  · intro fuel calls w error' h hc he k error hk hf
    rw [WaitForTableState_loop_error _ _ _ _ _ _ _ _ h _ hc he] at hk ⊢
    simp only [requests] at hk
    have hk0 : k = 0 := by omega
    subst hk0
    rw [Nat.add_zero, hc] at hf
    cases hf
    simp [requests, eventsAfterRequest, sleepDurations]
    exact fun h1 h2 => he ⟨h1, h2⟩

/-- The loop polls at a fixed interval: every poll but the last is followed by exactly one
sleep of 5 seconds, for every budget, every counter value and every response. -/
theorem WaitForTableState_loop_timeline (fuel calls : Nat) (waitTimeSeconds : Int) :
    ∃ n,
      timeline (WaitForTableState.loop GetNameForTableStatus client request targetState
        maxWaitSeconds fuel false calls waitTimeSeconds).trace
        = fixedIntervalTimeline 5 n ∨
      timeline (WaitForTableState.loop GetNameForTableStatus client request targetState
        maxWaitSeconds fuel false calls waitTimeSeconds).trace
        = fixedIntervalTimeline 5 n ++ [Tick.poll] := by
  refine WaitForTableState_loop_induct GetNameForTableStatus client targetState
    maxWaitSeconds (fun fuel calls w => ∃ n,
      timeline (WaitForTableState.loop GetNameForTableStatus client request targetState
        maxWaitSeconds fuel false calls w).trace = fixedIntervalTimeline 5 n ∨
      timeline (WaitForTableState.loop GetNameForTableStatus client request targetState
        maxWaitSeconds fuel false calls w).trace
        = fixedIntervalTimeline 5 n ++ [Tick.poll])
    ?_ ?_ ?_ ?_ ?_ ?_ fuel calls waitTimeSeconds
  · intro fuel calls w h
    rw [WaitForTableState_loop_exit _ _ _ _ _ _ _ _ h]
    exact ⟨0, Or.inl rfl⟩
  · intro calls w h
    rw [WaitForTableState_loop_running _ _ _ _ _ _ _ h]
    exact ⟨0, Or.inl rfl⟩
  · intro fuel calls w tableStatus h hc hs
    rw [WaitForTableState_loop_hit _ _ _ _ _ _ _ _ h _ hc hs]
    exact ⟨0, Or.inr rfl⟩
  · intro fuel calls w tableStatus h hc hs ih
    rw [WaitForTableState_loop_miss _ _ _ _ _ _ _ _ h _ hc hs, timeline_after]
    obtain ⟨n, hn | hn⟩ := ih
    · exact ⟨n + 1, Or.inl (by rw [hn]; rfl)⟩
    · exact ⟨n + 1, Or.inr (by rw [hn]; rfl)⟩
  · intro fuel calls w error h hc he
    rw [WaitForTableState_loop_notFound _ _ _ _ _ _ _ _ h _ hc he]
    exact ⟨0, Or.inr rfl⟩
  · intro fuel calls w error h hc he
    rw [WaitForTableState_loop_error _ _ _ _ _ _ _ _ h _ hc he]
    exact ⟨0, Or.inr rfl⟩

theorem WaitForTableState_loop_sleeps (fuel calls : Nat) (waitTimeSeconds : Int) :
    sleepDurations (WaitForTableState.loop GetNameForTableStatus client request
        targetState maxWaitSeconds fuel false calls waitTimeSeconds).trace =
      List.replicate (sleepDurations (WaitForTableState.loop GetNameForTableStatus client
        request targetState maxWaitSeconds fuel false calls waitTimeSeconds).trace).length 5 ∧
    (sleepDurations (WaitForTableState.loop GetNameForTableStatus client request
        targetState maxWaitSeconds fuel false calls waitTimeSeconds).trace).length ≤
      requests (WaitForTableState.loop GetNameForTableStatus client request
        targetState maxWaitSeconds fuel false calls waitTimeSeconds).trace := by
  refine WaitForTableState_loop_induct GetNameForTableStatus client targetState
    maxWaitSeconds (fun fuel calls w =>
      sleepDurations (WaitForTableState.loop GetNameForTableStatus client request
        targetState maxWaitSeconds fuel false calls w).trace =
      List.replicate (sleepDurations (WaitForTableState.loop GetNameForTableStatus client
        request targetState maxWaitSeconds fuel false calls w).trace).length 5 ∧
      (sleepDurations (WaitForTableState.loop GetNameForTableStatus client request
        targetState maxWaitSeconds fuel false calls w).trace).length ≤
      requests (WaitForTableState.loop GetNameForTableStatus client request
        targetState maxWaitSeconds fuel false calls w).trace)
    ?_ ?_ ?_ ?_ ?_ ?_ fuel calls waitTimeSeconds
  · intro fuel calls w h
    rw [WaitForTableState_loop_exit _ _ _ _ _ _ _ _ h]
    simp [sleepDurations, requests]
  · intro calls w h
    rw [WaitForTableState_loop_running _ _ _ _ _ _ _ h]
    simp [sleepDurations, requests]
  · intro fuel calls w tableStatus h hc hs
    rw [WaitForTableState_loop_hit _ _ _ _ _ _ _ _ h _ hc hs]
    simp [sleepDurations, requests]
  · intro fuel calls w tableStatus h hc hs ih
    rw [WaitForTableState_loop_miss _ _ _ _ _ _ _ _ h _ hc hs, sleepDurations_after,
      requests_after]
    simp only [sleepDurations, requests, List.cons_append, List.nil_append,
      List.length_cons, List.replicate_succ]
    exact ⟨by rw [← ih.1], by omega⟩
  · intro fuel calls w error h hc he
    rw [WaitForTableState_loop_notFound _ _ _ _ _ _ _ _ h _ hc he]
    simp [sleepDurations, requests]
  · intro fuel calls w error h hc he
    rw [WaitForTableState_loop_error _ _ _ _ _ _ _ _ h _ hc he]
    simp [sleepDurations, requests]

/-- The loop returns `true` exactly when one of the polls it made shows the target, for
every budget and every counter value. -/
theorem WaitForTableState_loop_result_iff (fuel calls : Nat) (waitTimeSeconds : Int) :
    (WaitForTableState.loop GetNameForTableStatus client request
        targetState maxWaitSeconds fuel false calls waitTimeSeconds).result = some true ↔
      ∃ k, k < requests (WaitForTableState.loop GetNameForTableStatus client request
          targetState maxWaitSeconds fuel false calls waitTimeSeconds).trace ∧
        tableReached GetNameForTableStatus targetState (client (calls + k)) = true := by
  refine WaitForTableState_loop_induct GetNameForTableStatus client targetState
    maxWaitSeconds (fun fuel calls w =>
      (WaitForTableState.loop GetNameForTableStatus client request
        targetState maxWaitSeconds fuel false calls w).result = some true ↔
      ∃ k, k < requests (WaitForTableState.loop GetNameForTableStatus client request
          targetState maxWaitSeconds fuel false calls w).trace ∧
        tableReached GetNameForTableStatus targetState (client (calls + k)) = true)
    ?_ ?_ ?_ ?_ ?_ ?_ fuel calls waitTimeSeconds
  · intro fuel calls w h
    rw [WaitForTableState_loop_exit _ _ _ _ _ _ _ _ h]
    simp [requests]
  · intro calls w h
    rw [WaitForTableState_loop_running _ _ _ _ _ _ _ h]
    simp [requests]
  · intro fuel calls w tableStatus h hc hs
    rw [WaitForTableState_loop_hit _ _ _ _ _ _ _ _ h _ hc hs]
    simp only [requests, true_iff]
    exact ⟨0, by omega, by simp [tableReached, hc, hs]⟩
  · intro fuel calls w tableStatus h hc hs ih
    rw [WaitForTableState_loop_miss _ _ _ _ _ _ _ _ h _ hc hs, requests_after, result_after,
      ih]
    simp only [requests]
    constructor
    · rintro ⟨k, hk, hr⟩
      exact ⟨k + 1, by omega, by rwa [show calls + (k + 1) = calls + 1 + k by omega]⟩
    · rintro ⟨k, hk, hr⟩
      cases k with
      | zero => simp [tableReached, hc, hs] at hr
      | succ k =>
        exact ⟨k, by omega, by rwa [show calls + 1 + k = calls + (k + 1) by omega]⟩
  · intro fuel calls w error h hc he
    rw [WaitForTableState_loop_notFound _ _ _ _ _ _ _ _ h _ hc he]
    simp only [requests, true_iff]
    exact ⟨0, by omega, by simp [tableReached, hc, he]⟩
  · intro fuel calls w error h hc he
    rw [WaitForTableState_loop_error _ _ _ _ _ _ _ _ h _ hc he]
    simp only [requests]
    constructor
    · intro hf; cases hf
    · rintro ⟨k, hk, hr⟩
      have hk0 : k = 0 := by omega
      subst hk0
      simp [tableReached, hc] at hr
      exact absurd hr he

end TableLoop

/-! ## The loop of `WaitForTableState` while the counter does not overflow

For `maxWaitSeconds ≤ 2147483645` the counter, a multiple of 5 below `maxWaitSeconds`,
never exceeds 2147483645 and `waitTimeSeconds += 5` is exact. -/

section TableLoopExact

variable {TableStatus : Type} (GetNameForTableStatus : TableStatus → String)
  (client : Nat → DescribeTableOutcome TableStatus)
  (request : DescribeTableRequest) (targetState : String) (maxWaitSeconds : Int)

theorem WaitForTableState_loop_requests_iff (hmax : maxWaitSeconds ≤ 2147483645)
    (fuel calls : Nat) (waitTimeSeconds : Int)
    (hw0 : 0 ≤ waitTimeSeconds) (hw5 : waitTimeSeconds % 5 = 0) :
    ∀ k : Nat, k < requests (WaitForTableState.loop GetNameForTableStatus client request
        targetState maxWaitSeconds fuel false calls waitTimeSeconds).trace ↔
      (k < fuel ∧ waitTimeSeconds + 5 * (k : Int) < maxWaitSeconds ∧
        ∀ j, j < k →
          tableEndsLoop GetNameForTableStatus targetState (client (calls + j)) = false) := by
  refine WaitForTableState_loop_induct GetNameForTableStatus client targetState
    maxWaitSeconds (fun fuel calls w => 0 ≤ w → w % 5 = 0 →
      ∀ k : Nat, k < requests (WaitForTableState.loop GetNameForTableStatus client request
        targetState maxWaitSeconds fuel false calls w).trace ↔
      (k < fuel ∧ w + 5 * (k : Int) < maxWaitSeconds ∧
        ∀ j, j < k →
          tableEndsLoop GetNameForTableStatus targetState (client (calls + j)) = false))
    ?_ ?_ ?_ ?_ ?_ ?_ fuel calls waitTimeSeconds hw0 hw5
  · intro fuel calls w h _ _ k
    rw [WaitForTableState_loop_exit _ _ _ _ _ _ _ _ h]
    simp only [requests]
    constructor
    · intro hk; omega
    · rintro ⟨_, h1, _⟩; omega
  · intro calls w h _ _ k
    rw [WaitForTableState_loop_running _ _ _ _ _ _ _ h]
    simp only [requests]
    constructor
    · intro hk; omega
    · rintro ⟨h0, _, _⟩; omega
  · intro fuel calls w tableStatus h hc hs _ _ k
    rw [WaitForTableState_loop_hit _ _ _ _ _ _ _ _ h _ hc hs]
    simp only [requests]
    constructor
    · intro hk
      have hk0 : k = 0 := by omega
      subst hk0
      exact ⟨by omega, by simpa using h, fun j hj => absurd hj (Nat.not_lt_zero j)⟩
    · rintro ⟨_, _, hall⟩
      by_contra hk
      have := hall 0 (by omega)
      simp [tableEndsLoop, hc, hs] at this
  · intro fuel calls w tableStatus h hc hs ih hw0 hw5 k
    rw [wrapInt32_of_fits (w + 5) (by omega) (by omega)] at ih
    rw [WaitForTableState_loop_miss _ _ _ _ _ _ _ _ h _ hc hs,
      wrapInt32_of_fits (w + 5) (by omega) (by omega), requests_after]
    simp only [requests]
    cases k with
    | zero =>
      simp only [Nat.cast_zero, mul_zero, add_zero]
      exact ⟨fun _ => ⟨by omega, h, fun j hj => absurd hj (Nat.not_lt_zero j)⟩,
        fun _ => by omega⟩
    | succ k =>
      have := ih (by omega) (by omega) k
      constructor
      · intro hk
        obtain ⟨h0, h1, h2⟩ := this.1 (by omega)
        refine ⟨by omega, by push_cast; omega, fun j hj => ?_⟩
        cases j with
        | zero => simp [tableEndsLoop, hc, hs]
        | succ j =>
          have := h2 j (by omega)
          rwa [show calls + 1 + j = calls + (j + 1) by omega] at this
      · rintro ⟨h0, h1, h2⟩
        have := this.2 ⟨by omega, by push_cast at h1; omega, fun j hj => by
          have := h2 (j + 1) (by omega)
          rwa [show calls + (j + 1) = calls + 1 + j by omega] at this⟩
        omega
  · intro fuel calls w error h hc he _ _ k
    rw [WaitForTableState_loop_notFound _ _ _ _ _ _ _ _ h _ hc he]
    simp only [requests]
    constructor
    · intro hk
      have hk0 : k = 0 := by omega
      subst hk0
      exact ⟨by omega, by simpa using h, fun j hj => absurd hj (Nat.not_lt_zero j)⟩
    · rintro ⟨_, _, hall⟩
      by_contra hk
      have := hall 0 (by omega)
      simp [tableEndsLoop, hc] at this
  · intro fuel calls w error h hc he _ _ k
    rw [WaitForTableState_loop_error _ _ _ _ _ _ _ _ h _ hc he]
    simp only [requests]
    constructor
    · intro hk
      have hk0 : k = 0 := by omega
      subst hk0
      exact ⟨by omega, by simpa using h, fun j hj => absurd hj (Nat.not_lt_zero j)⟩
    · rintro ⟨_, _, hall⟩
      by_contra hk
      have := hall 0 (by omega)
      simp [tableEndsLoop, hc] at this

/-- With fuel for the whole budget the loop returns. -/
theorem WaitForTableState_loop_returns (hmax : maxWaitSeconds ≤ 2147483645)
    (fuel calls : Nat) (waitTimeSeconds : Int)
    (hw0 : 0 ≤ waitTimeSeconds) (hw5 : waitTimeSeconds % 5 = 0)
    (hfuel : maxWaitSeconds - waitTimeSeconds ≤ 5 * (fuel : Int)) :
    (WaitForTableState.loop GetNameForTableStatus client request targetState
      maxWaitSeconds fuel false calls waitTimeSeconds).result ≠ none := by
  refine WaitForTableState_loop_induct GetNameForTableStatus client targetState
    maxWaitSeconds (fun fuel calls w => 0 ≤ w → w % 5 = 0 →
      maxWaitSeconds - w ≤ 5 * (fuel : Int) →
      (WaitForTableState.loop GetNameForTableStatus client request targetState
        maxWaitSeconds fuel false calls w).result ≠ none)
    ?_ ?_ ?_ ?_ ?_ ?_ fuel calls waitTimeSeconds hw0 hw5 hfuel
  · intro fuel calls w h _ _ _
    rw [WaitForTableState_loop_exit _ _ _ _ _ _ _ _ h]
    simp
  · intro calls w h _ _ hf
    simp at hf
    omega
  · intro fuel calls w tableStatus h hc hs _ _ _
    rw [WaitForTableState_loop_hit _ _ _ _ _ _ _ _ h _ hc hs]
    simp
  · intro fuel calls w tableStatus h hc hs ih hw0 hw5 hf
    rw [wrapInt32_of_fits (w + 5) (by omega) (by omega)] at ih
    rw [WaitForTableState_loop_miss _ _ _ _ _ _ _ _ h _ hc hs,
      wrapInt32_of_fits (w + 5) (by omega) (by omega), result_after]
    exact ih (by omega) (by omega) (by push_cast at hf; omega)
  · intro fuel calls w error h hc he _ _ _
    rw [WaitForTableState_loop_notFound _ _ _ _ _ _ _ _ h _ hc he]
    simp
  · intro fuel calls w error h hc he _ _ _
    rw [WaitForTableState_loop_error _ _ _ _ _ _ _ _ h _ hc he]
    simp

end TableLoopExact

/-! ## More fuel does not change a run that has returned -/

/-- Once the loop of `WaitForTableState` has returned, observing it for more iterations
gives the same result and the same trace. -/
theorem WaitForTableState_loop_fuel_mono {TableStatus : Type}
    (GetNameForTableStatus : TableStatus → String)
    (client : Nat → DescribeTableOutcome TableStatus)
    (request : DescribeTableRequest) (targetState : String) (maxWaitSeconds : Int)
    (fuel calls : Nat) (waitTimeSeconds : Int)
    (hret : (WaitForTableState.loop GetNameForTableStatus client request targetState
      maxWaitSeconds fuel false calls waitTimeSeconds).result ≠ none) (more : Nat) :
    WaitForTableState.loop GetNameForTableStatus client request targetState
      maxWaitSeconds (fuel + more) false calls waitTimeSeconds
      = WaitForTableState.loop GetNameForTableStatus client request targetState
          maxWaitSeconds fuel false calls waitTimeSeconds := by
  refine WaitForTableState_loop_induct GetNameForTableStatus client targetState
    maxWaitSeconds (fun fuel calls w =>
      (WaitForTableState.loop GetNameForTableStatus client request targetState
        maxWaitSeconds fuel false calls w).result ≠ none →
      WaitForTableState.loop GetNameForTableStatus client request targetState
        maxWaitSeconds (fuel + more) false calls w
        = WaitForTableState.loop GetNameForTableStatus client request targetState
            maxWaitSeconds fuel false calls w)
    ?_ ?_ ?_ ?_ ?_ ?_ fuel calls waitTimeSeconds hret
  · intro fuel calls w h _
    rw [WaitForTableState_loop_exit _ _ _ _ _ _ _ _ h,
      WaitForTableState_loop_exit _ _ _ _ _ _ _ _ h]
  · intro calls w h hr
    rw [WaitForTableState_loop_running _ _ _ _ _ _ _ h] at hr
    exact absurd rfl hr
  · intro fuel calls w tableStatus h hc hs _
    rw [show fuel + 1 + more = fuel + more + 1 by omega,
      WaitForTableState_loop_hit _ _ _ _ _ _ _ _ h _ hc hs,
      WaitForTableState_loop_hit _ _ _ _ _ _ _ _ h _ hc hs]
  · intro fuel calls w tableStatus h hc hs ih hr
    rw [WaitForTableState_loop_miss _ _ _ _ _ _ _ _ h _ hc hs, result_after] at hr
    rw [show fuel + 1 + more = fuel + more + 1 by omega,
      WaitForTableState_loop_miss _ _ _ _ _ _ _ _ h _ hc hs,
      WaitForTableState_loop_miss _ _ _ _ _ _ _ _ h _ hc hs, ih hr]
  · intro fuel calls w error h hc he _
    rw [show fuel + 1 + more = fuel + more + 1 by omega,
      WaitForTableState_loop_notFound _ _ _ _ _ _ _ _ h _ hc he,
      WaitForTableState_loop_notFound _ _ _ _ _ _ _ _ h _ hc he]
  · intro fuel calls w error h hc he _
    rw [show fuel + 1 + more = fuel + more + 1 by omega,
      WaitForTableState_loop_error _ _ _ _ _ _ _ _ h _ hc he,
      WaitForTableState_loop_error _ _ _ _ _ _ _ _ h _ hc he]

/-! ## The loop of `WaitForTableState` when the counter overflows

With `maxWaitSeconds = 2147483647` the counter reaches 2147483645 after poll number
429496729, is still below the budget, and wraps to -2147483646 at the next addition. -/

/-- After up to 429496731 polls the counter of `WaitForTableState` is below 2147483647:
it is `5 * calls` up to 2147483645 and negative afterwards. -/
theorem WaitForTableState_counter_lt (calls : Nat) (h : calls ≤ 429496731) :
    wrapInt32 (5 * (calls : Int)) < 2147483647 := by
  by_cases hc : calls ≤ 429496729
  · rw [wrapInt32_of_fits _ (by omega) (by omega)]
    omega
  · rw [wrapInt32_of_above _ (by omega) (by omega)]
    omega

/-- The table never becomes `ACTIVE`: the loop is still polling after 429496731 polls. -/
theorem WaitForTableState_loop_keeps_polling (fuel calls : Nat)
    (hfuel : calls + fuel ≤ 429496731) :
    (WaitForTableState.loop id alwaysCreating ⟨"users"⟩ "ACTIVE" 2147483647
      fuel false calls (wrapInt32 (5 * (calls : Int)))).result = none ∧
    requests (WaitForTableState.loop id alwaysCreating ⟨"users"⟩ "ACTIVE"
      2147483647 fuel false calls (wrapInt32 (5 * (calls : Int)))).trace = fuel := by
  induction fuel generalizing calls with
  | zero =>
    have hw := WaitForTableState_counter_lt calls (by omega)
    rw [WaitForTableState_loop_running _ _ _ _ _ _ _ hw]
    exact ⟨rfl, rfl⟩
  | succ fuel ih =>
    have hw := WaitForTableState_counter_lt calls (by omega)
    rw [WaitForTableState_loop_miss id _ _ _ _ _ _ _ hw "CREATING" rfl (by decide),
      wrapInt32_add, show 5 * (calls : Int) + 5 = 5 * ((calls + 1 : Nat) : Int) by
        push_cast; ring, result_after, requests_after]
    obtain ⟨h1, h2⟩ := ih (calls + 1) (by omega)
    exact ⟨h1, by rw [h2]; simp only [requests]; omega⟩

/-! ## The loop of `WaitForInstanceState`, one iteration at a time -/

section InstanceLoop

variable {InstanceStateName EC2Errors : Type}
  (GetNameForInstanceStateName : InstanceStateName → String)
  (client : Nat → DescribeInstancesOutcome InstanceStateName EC2Errors)
  (instanceId targetState : String) (maxWaitSeconds : Int)

/-- One call of `GetInstanceState` issues exactly one request, first, and never sleeps. -/
theorem GetInstanceState_trace (calls : Nat) :
    ∃ r rest, (GetInstanceState GetNameForInstanceStateName client calls instanceId).trace
        = .request r :: rest ∧ requests rest = 0 ∧ sleepDurations rest = [] ∧
        timeline rest = [] := by
  unfold GetInstanceState
  split
  · split
    · split
      · exact ⟨_, _, rfl, rfl, rfl, rfl⟩
      · exact ⟨_, _, rfl, rfl, rfl, rfl⟩
    · exact ⟨_, _, rfl, rfl, rfl, rfl⟩
  · exact ⟨_, _, rfl, rfl, rfl, rfl⟩

theorem GetInstanceState_requests (calls : Nat) :
    requests (GetInstanceState GetNameForInstanceStateName client calls instanceId).trace
      = 1 := by
  obtain ⟨r, rest, h, h1, _, _⟩ :=
    GetInstanceState_trace GetNameForInstanceStateName client instanceId calls
  rw [h]
  simp [requests, h1]

theorem GetInstanceState_sleeps (calls : Nat) :
    sleepDurations
      (GetInstanceState GetNameForInstanceStateName client calls instanceId).trace = [] := by
  obtain ⟨r, rest, h, _, h2, _⟩ :=
    GetInstanceState_trace GetNameForInstanceStateName client instanceId calls
  rw [h]
  simp [sleepDurations, h2]

theorem GetInstanceState_timeline (calls : Nat) :
    timeline (GetInstanceState GetNameForInstanceStateName client calls instanceId).trace
      = [Tick.poll] := by
  obtain ⟨r, rest, h, _, _, h3⟩ :=
    GetInstanceState_trace GetNameForInstanceStateName client instanceId calls
  rw [h]
  simp [timeline, h3]

theorem WaitForInstanceState_loop_exit (fuel calls : Nat) (waitTimeSeconds : Int)
    (h : ¬ waitTimeSeconds < maxWaitSeconds) :
    WaitForInstanceState.loop GetNameForInstanceStateName client instanceId targetState
      maxWaitSeconds fuel false calls waitTimeSeconds = ⟨some false, []⟩ := by
  cases fuel <;> simp [WaitForInstanceState.loop, h]

theorem WaitForInstanceState_loop_running (calls : Nat) (waitTimeSeconds : Int)
    (h : waitTimeSeconds < maxWaitSeconds) :
    WaitForInstanceState.loop GetNameForInstanceStateName client instanceId targetState
      maxWaitSeconds 0 false calls waitTimeSeconds = ⟨none, []⟩ := by
  simp [WaitForInstanceState.loop, h]

theorem WaitForInstanceState_loop_hit (fuel calls : Nat) (waitTimeSeconds : Int)
    (h : waitTimeSeconds < maxWaitSeconds)
    (hs : (GetInstanceState GetNameForInstanceStateName client calls instanceId).result
      = targetState) :
    WaitForInstanceState.loop GetNameForInstanceStateName client instanceId targetState
      maxWaitSeconds (fuel + 1) false calls waitTimeSeconds
      = ⟨some true,
         (GetInstanceState GetNameForInstanceStateName client calls instanceId).trace⟩ := by
  rw [WaitForInstanceState.loop, if_pos ⟨rfl, h⟩, if_pos hs]

theorem WaitForInstanceState_loop_error (fuel calls : Nat) (waitTimeSeconds : Int)
    (h : waitTimeSeconds < maxWaitSeconds)
    (hs : ¬ (GetInstanceState GetNameForInstanceStateName client calls instanceId).result
      = targetState)
    (he : (GetInstanceState GetNameForInstanceStateName client calls instanceId).result = "") :
    WaitForInstanceState.loop GetNameForInstanceStateName client instanceId targetState
      maxWaitSeconds (fuel + 1) false calls waitTimeSeconds
      = ⟨some false,
         (GetInstanceState GetNameForInstanceStateName client calls instanceId).trace⟩ := by
  rw [WaitForInstanceState.loop, if_pos ⟨rfl, h⟩, if_neg hs, if_pos he]

theorem WaitForInstanceState_loop_wait (fuel calls : Nat) (waitTimeSeconds : Int)
    (h : waitTimeSeconds < maxWaitSeconds)
    (hs : ¬ (GetInstanceState GetNameForInstanceStateName client calls instanceId).result
      = targetState)
    (he : ¬ (GetInstanceState GetNameForInstanceStateName client calls instanceId).result
      = "") :
    WaitForInstanceState.loop GetNameForInstanceStateName client instanceId targetState
      maxWaitSeconds (fuel + 1) false calls waitTimeSeconds
      = (WaitForInstanceState.loop GetNameForInstanceStateName client instanceId targetState
          maxWaitSeconds fuel false (calls + 1) (wrapInt32 (waitTimeSeconds + 10))).after
        ((GetInstanceState GetNameForInstanceStateName client calls instanceId).trace ++
          [.cout ("Instance " ++ instanceId ++ " state: " ++
              (GetInstanceState GetNameForInstanceStateName client calls instanceId).result ++
              " (waiting for " ++ targetState ++ ")"),
           .sleep 10]) := by
  rw [WaitForInstanceState.loop, if_pos ⟨rfl, h⟩, if_neg hs, if_neg he]

theorem WaitForInstanceState_requests_step (calls : Nat) (text : String) :
    requests ((GetInstanceState GetNameForInstanceStateName client calls instanceId).trace ++
      [.cout text, .sleep 10]) = 1 := by
  rw [requests_append, GetInstanceState_requests]
  rfl

theorem WaitForInstanceState_sleeps_step (calls : Nat) (text : String) :
    sleepDurations
      ((GetInstanceState GetNameForInstanceStateName client calls instanceId).trace ++
        [.cout text, .sleep 10]) = [10] := by
  rw [sleepDurations_append, GetInstanceState_sleeps]
  rfl

theorem WaitForInstanceState_timeline_step (calls : Nat) (text : String) :
    timeline
      ((GetInstanceState GetNameForInstanceStateName client calls instanceId).trace ++
        [.cout text, .sleep 10]) = [Tick.poll, Tick.sleep 10] := by
  rw [timeline_append, GetInstanceState_timeline]
  rfl

/-- Induction along the iterations of the loop of `WaitForInstanceState`. -/
theorem WaitForInstanceState_loop_induct (motive : Nat → Nat → Int → Prop)
    (exit : ∀ fuel calls w, ¬ w < maxWaitSeconds → motive fuel calls w)
    (running : ∀ calls w, w < maxWaitSeconds → motive 0 calls w)
    (hit : ∀ fuel calls w, w < maxWaitSeconds →
      (GetInstanceState GetNameForInstanceStateName client calls instanceId).result
        = targetState → motive (fuel + 1) calls w)
    (failed : ∀ fuel calls w, w < maxWaitSeconds →
      ¬ (GetInstanceState GetNameForInstanceStateName client calls instanceId).result
        = targetState →
      (GetInstanceState GetNameForInstanceStateName client calls instanceId).result = "" →
      motive (fuel + 1) calls w)
    (wait : ∀ fuel calls w, w < maxWaitSeconds →
      ¬ (GetInstanceState GetNameForInstanceStateName client calls instanceId).result
        = targetState →
      ¬ (GetInstanceState GetNameForInstanceStateName client calls instanceId).result = "" →
      motive fuel (calls + 1) (wrapInt32 (w + 10)) → motive (fuel + 1) calls w)
    (fuel calls : Nat) (w : Int) : motive fuel calls w := by
  induction fuel generalizing calls w with
  | zero =>
    by_cases h : w < maxWaitSeconds
    · exact running calls w h
    · exact exit 0 calls w h
  | succ fuel ih =>
    by_cases h : w < maxWaitSeconds
    · by_cases hs : (GetInstanceState GetNameForInstanceStateName client calls
          instanceId).result = targetState
      · exact hit fuel calls w h hs
      · by_cases he : (GetInstanceState GetNameForInstanceStateName client calls
            instanceId).result = ""
        · exact failed fuel calls w h hs he
        · exact wait fuel calls w h hs he (ih _ _)
    · exact exit (fuel + 1) calls w h

/-- The loop returns `true` exactly when one of the polls it made returned `targetState`,
for every budget and every counter value. -/
theorem WaitForInstanceState_loop_result_iff (fuel calls : Nat) (waitTimeSeconds : Int) :
    (WaitForInstanceState.loop GetNameForInstanceStateName client
        instanceId targetState maxWaitSeconds fuel false calls waitTimeSeconds).result
        = some true ↔
      ∃ k, k < requests (WaitForInstanceState.loop GetNameForInstanceStateName client
          instanceId targetState maxWaitSeconds fuel false calls waitTimeSeconds).trace ∧
        (GetInstanceState GetNameForInstanceStateName client (calls + k) instanceId).result
          = targetState := by
  refine WaitForInstanceState_loop_induct GetNameForInstanceStateName client instanceId
    targetState maxWaitSeconds (fun fuel calls w =>
      (WaitForInstanceState.loop GetNameForInstanceStateName client
        instanceId targetState maxWaitSeconds fuel false calls w).result = some true ↔
      ∃ k, k < requests (WaitForInstanceState.loop GetNameForInstanceStateName client
          instanceId targetState maxWaitSeconds fuel false calls w).trace ∧
        (GetInstanceState GetNameForInstanceStateName client (calls + k) instanceId).result
          = targetState)
    ?_ ?_ ?_ ?_ ?_ fuel calls waitTimeSeconds
  · intro fuel calls w h
    rw [WaitForInstanceState_loop_exit _ _ _ _ _ _ _ _ h]
    simp [requests]
  · intro calls w h
    rw [WaitForInstanceState_loop_running _ _ _ _ _ _ _ h]
    simp [requests]
  · intro fuel calls w h hs
    rw [WaitForInstanceState_loop_hit _ _ _ _ _ _ _ _ h hs, GetInstanceState_requests]
    simp only [true_iff]
    exact ⟨0, by omega, hs⟩
  · intro fuel calls w h hs he
    rw [WaitForInstanceState_loop_error _ _ _ _ _ _ _ _ h hs he, GetInstanceState_requests]
    constructor
    · intro hf; cases hf
    · rintro ⟨k, hk, hr⟩
      have hk0 : k = 0 := by omega
      subst hk0
      exact absurd hr hs
  · intro fuel calls w h hs he ih
    rw [WaitForInstanceState_loop_wait _ _ _ _ _ _ _ _ h hs he, requests_after, result_after,
      WaitForInstanceState_requests_step, ih]
    constructor
    · rintro ⟨k, hk, hr⟩
      exact ⟨k + 1, by omega, by rwa [show calls + (k + 1) = calls + 1 + k by omega]⟩
    · rintro ⟨k, hk, hr⟩
      cases k with
      | zero => exact absurd hr hs
      | succ k =>
        exact ⟨k, by omega, by rwa [show calls + 1 + k = calls + (k + 1) by omega]⟩

/-- The loop polls at a fixed interval: every poll but the last is followed by exactly one
sleep of 10 seconds, for every budget, every counter value and every response. -/
theorem WaitForInstanceState_loop_timeline (fuel calls : Nat) (waitTimeSeconds : Int) :
    ∃ n,
      timeline (WaitForInstanceState.loop GetNameForInstanceStateName client instanceId
        targetState maxWaitSeconds fuel false calls waitTimeSeconds).trace
        = fixedIntervalTimeline 10 n ∨
      timeline (WaitForInstanceState.loop GetNameForInstanceStateName client instanceId
        targetState maxWaitSeconds fuel false calls waitTimeSeconds).trace
        = fixedIntervalTimeline 10 n ++ [Tick.poll] := by
  refine WaitForInstanceState_loop_induct GetNameForInstanceStateName client instanceId
    targetState maxWaitSeconds (fun fuel calls w => ∃ n,
      timeline (WaitForInstanceState.loop GetNameForInstanceStateName client instanceId
        targetState maxWaitSeconds fuel false calls w).trace
        = fixedIntervalTimeline 10 n ∨
      timeline (WaitForInstanceState.loop GetNameForInstanceStateName client instanceId
        targetState maxWaitSeconds fuel false calls w).trace
        = fixedIntervalTimeline 10 n ++ [Tick.poll])
    ?_ ?_ ?_ ?_ ?_ fuel calls waitTimeSeconds
  · intro fuel calls w h
    rw [WaitForInstanceState_loop_exit _ _ _ _ _ _ _ _ h]
    exact ⟨0, Or.inl rfl⟩
  · intro calls w h
    rw [WaitForInstanceState_loop_running _ _ _ _ _ _ _ h]
    exact ⟨0, Or.inl rfl⟩
  · intro fuel calls w h hs
    rw [WaitForInstanceState_loop_hit _ _ _ _ _ _ _ _ h hs, GetInstanceState_timeline]
    exact ⟨0, Or.inr rfl⟩
  · intro fuel calls w h hs he
    rw [WaitForInstanceState_loop_error _ _ _ _ _ _ _ _ h hs he, GetInstanceState_timeline]
    exact ⟨0, Or.inr rfl⟩
  · intro fuel calls w h hs he ih
    rw [WaitForInstanceState_loop_wait _ _ _ _ _ _ _ _ h hs he, timeline_after,
      WaitForInstanceState_timeline_step]
    obtain ⟨n, hn | hn⟩ := ih
    · exact ⟨n + 1, Or.inl (by rw [hn]; rfl)⟩
    · exact ⟨n + 1, Or.inr (by rw [hn]; rfl)⟩

theorem WaitForInstanceState_loop_sleeps (fuel calls : Nat) (waitTimeSeconds : Int) :
    sleepDurations (WaitForInstanceState.loop GetNameForInstanceStateName client
        instanceId targetState maxWaitSeconds fuel false calls waitTimeSeconds).trace =
      List.replicate (sleepDurations (WaitForInstanceState.loop GetNameForInstanceStateName
        client instanceId targetState maxWaitSeconds fuel false calls
        waitTimeSeconds).trace).length 10 ∧
    (sleepDurations (WaitForInstanceState.loop GetNameForInstanceStateName client
        instanceId targetState maxWaitSeconds fuel false calls waitTimeSeconds).trace).length ≤
      requests (WaitForInstanceState.loop GetNameForInstanceStateName client
        instanceId targetState maxWaitSeconds fuel false calls waitTimeSeconds).trace := by
  refine WaitForInstanceState_loop_induct GetNameForInstanceStateName client instanceId
    targetState maxWaitSeconds (fun fuel calls w =>
      sleepDurations (WaitForInstanceState.loop GetNameForInstanceStateName client
        instanceId targetState maxWaitSeconds fuel false calls w).trace =
      List.replicate (sleepDurations (WaitForInstanceState.loop GetNameForInstanceStateName
        client instanceId targetState maxWaitSeconds fuel false calls w).trace).length 10 ∧
      (sleepDurations (WaitForInstanceState.loop GetNameForInstanceStateName client
        instanceId targetState maxWaitSeconds fuel false calls w).trace).length ≤
      requests (WaitForInstanceState.loop GetNameForInstanceStateName client
        instanceId targetState maxWaitSeconds fuel false calls w).trace)
    ?_ ?_ ?_ ?_ ?_ fuel calls waitTimeSeconds
  · intro fuel calls w h
    rw [WaitForInstanceState_loop_exit _ _ _ _ _ _ _ _ h]
    simp [sleepDurations, requests]
  · intro calls w h
    rw [WaitForInstanceState_loop_running _ _ _ _ _ _ _ h]
    simp [sleepDurations, requests]
  · intro fuel calls w h hs
    rw [WaitForInstanceState_loop_hit _ _ _ _ _ _ _ _ h hs, GetInstanceState_sleeps]
    simp
  · intro fuel calls w h hs he
    rw [WaitForInstanceState_loop_error _ _ _ _ _ _ _ _ h hs he, GetInstanceState_sleeps]
    simp
  · intro fuel calls w h hs he ih
    rw [WaitForInstanceState_loop_wait _ _ _ _ _ _ _ _ h hs he, sleepDurations_after,
      requests_after, WaitForInstanceState_requests_step,
      WaitForInstanceState_sleeps_step]
    simp only [List.cons_append, List.nil_append, List.length_cons, List.replicate_succ]
    exact ⟨by rw [← ih.1], by omega⟩

end InstanceLoop

/-! ## The loop of `WaitForInstanceState` while the counter does not overflow

For `maxWaitSeconds ≤ 2147483640` the counter, a multiple of 10 below `maxWaitSeconds`,
never exceeds 2147483640 and `waitTimeSeconds += 10` is exact. -/

section InstanceLoopExact

variable {InstanceStateName EC2Errors : Type}
  (GetNameForInstanceStateName : InstanceStateName → String)
  (client : Nat → DescribeInstancesOutcome InstanceStateName EC2Errors)
  (instanceId targetState : String) (maxWaitSeconds : Int)

theorem WaitForInstanceState_loop_requests_iff (hmax : maxWaitSeconds ≤ 2147483640)
    (fuel calls : Nat) (waitTimeSeconds : Int)
    (hw0 : 0 ≤ waitTimeSeconds) (hw10 : waitTimeSeconds % 10 = 0) :
    ∀ k : Nat, k < requests (WaitForInstanceState.loop GetNameForInstanceStateName client
        instanceId targetState maxWaitSeconds fuel false calls waitTimeSeconds).trace ↔
      (k < fuel ∧ waitTimeSeconds + 10 * (k : Int) < maxWaitSeconds ∧
        ∀ j, j < k →
          (GetInstanceState GetNameForInstanceStateName client (calls + j) instanceId).result
              ≠ targetState ∧
          (GetInstanceState GetNameForInstanceStateName client (calls + j) instanceId).result
              ≠ "") := by
  refine WaitForInstanceState_loop_induct GetNameForInstanceStateName client instanceId
    targetState maxWaitSeconds (fun fuel calls w => 0 ≤ w → w % 10 = 0 →
      ∀ k : Nat, k < requests (WaitForInstanceState.loop GetNameForInstanceStateName client
        instanceId targetState maxWaitSeconds fuel false calls w).trace ↔
      (k < fuel ∧ w + 10 * (k : Int) < maxWaitSeconds ∧
        ∀ j, j < k →
          (GetInstanceState GetNameForInstanceStateName client (calls + j) instanceId).result
              ≠ targetState ∧
          (GetInstanceState GetNameForInstanceStateName client (calls + j) instanceId).result
              ≠ ""))
    ?_ ?_ ?_ ?_ ?_ fuel calls waitTimeSeconds hw0 hw10
  · intro fuel calls w h _ _ k
    rw [WaitForInstanceState_loop_exit _ _ _ _ _ _ _ _ h]
    simp only [requests]
    constructor
    · intro hk; omega
    · rintro ⟨_, h1, _⟩; omega
  · intro calls w h _ _ k
    rw [WaitForInstanceState_loop_running _ _ _ _ _ _ _ h]
    simp only [requests]
    constructor
    · intro hk; omega
    · rintro ⟨h0, _, _⟩; omega
  · intro fuel calls w h hs _ _ k
    rw [WaitForInstanceState_loop_hit _ _ _ _ _ _ _ _ h hs, GetInstanceState_requests]
    constructor
    · intro hk
      have hk0 : k = 0 := by omega
      subst hk0
      exact ⟨by omega, by simpa using h, fun j hj => absurd hj (Nat.not_lt_zero j)⟩
    · rintro ⟨_, _, hall⟩
      by_contra hk
      exact (hall 0 (by omega)).1 hs
  · intro fuel calls w h hs he _ _ k
    rw [WaitForInstanceState_loop_error _ _ _ _ _ _ _ _ h hs he, GetInstanceState_requests]
    constructor
    · intro hk
      have hk0 : k = 0 := by omega
      subst hk0
      exact ⟨by omega, by simpa using h, fun j hj => absurd hj (Nat.not_lt_zero j)⟩
    · rintro ⟨_, _, hall⟩
      by_contra hk
      exact (hall 0 (by omega)).2 he
  · intro fuel calls w h hs he ih hw0 hw10 k
    rw [wrapInt32_of_fits (w + 10) (by omega) (by omega)] at ih
    rw [WaitForInstanceState_loop_wait _ _ _ _ _ _ _ _ h hs he,
      wrapInt32_of_fits (w + 10) (by omega) (by omega), requests_after,
      WaitForInstanceState_requests_step]
    cases k with
    | zero =>
      simp only [Nat.cast_zero, mul_zero, add_zero]
      exact ⟨fun _ => ⟨by omega, h, fun j hj => absurd hj (Nat.not_lt_zero j)⟩,
        fun _ => by omega⟩
    | succ k =>
      have := ih (by omega) (by omega) k
      constructor
      · intro hk
        obtain ⟨h0, h1, h2⟩ := this.1 (by omega)
        refine ⟨by omega, by push_cast; omega, fun j hj => ?_⟩
        cases j with
        | zero => exact ⟨hs, he⟩
        | succ j =>
          have := h2 j (by omega)
          rwa [show calls + 1 + j = calls + (j + 1) by omega] at this
      · rintro ⟨h0, h1, h2⟩
        have := this.2 ⟨by omega, by push_cast at h1; omega, fun j hj => by
          have := h2 (j + 1) (by omega)
          rwa [show calls + (j + 1) = calls + 1 + j by omega] at this⟩
        omega

/-- With fuel for the whole budget the loop returns. -/
theorem WaitForInstanceState_loop_returns (hmax : maxWaitSeconds ≤ 2147483640)
    (fuel calls : Nat) (waitTimeSeconds : Int)
    (hw0 : 0 ≤ waitTimeSeconds) (hw10 : waitTimeSeconds % 10 = 0)
    (hfuel : maxWaitSeconds - waitTimeSeconds ≤ 10 * (fuel : Int)) :
    (WaitForInstanceState.loop GetNameForInstanceStateName client instanceId targetState
      maxWaitSeconds fuel false calls waitTimeSeconds).result ≠ none := by
  refine WaitForInstanceState_loop_induct GetNameForInstanceStateName client instanceId
    targetState maxWaitSeconds (fun fuel calls w => 0 ≤ w → w % 10 = 0 →
      maxWaitSeconds - w ≤ 10 * (fuel : Int) →
      (WaitForInstanceState.loop GetNameForInstanceStateName client instanceId targetState
        maxWaitSeconds fuel false calls w).result ≠ none)
    ?_ ?_ ?_ ?_ ?_ fuel calls waitTimeSeconds hw0 hw10 hfuel
  · intro fuel calls w h _ _ _
    rw [WaitForInstanceState_loop_exit _ _ _ _ _ _ _ _ h]
    simp
  · intro calls w h _ _ hf
    simp at hf
    omega
  · intro fuel calls w h hs _ _ _
    rw [WaitForInstanceState_loop_hit _ _ _ _ _ _ _ _ h hs]
    simp
  · intro fuel calls w h hs he _ _ _
    rw [WaitForInstanceState_loop_error _ _ _ _ _ _ _ _ h hs he]
    simp
  · intro fuel calls w h hs he ih hw0 hw10 hf
    rw [wrapInt32_of_fits (w + 10) (by omega) (by omega)] at ih
    rw [WaitForInstanceState_loop_wait _ _ _ _ _ _ _ _ h hs he,
      wrapInt32_of_fits (w + 10) (by omega) (by omega), result_after]
    exact ih (by omega) (by omega) (by push_cast at hf; omega)

end InstanceLoopExact

/-- Once the loop of `WaitForInstanceState` has returned, observing it for more iterations
gives the same result and the same trace. -/
theorem WaitForInstanceState_loop_fuel_mono {InstanceStateName EC2Errors : Type}
    (GetNameForInstanceStateName : InstanceStateName → String)
    (client : Nat → DescribeInstancesOutcome InstanceStateName EC2Errors)
    (instanceId targetState : String) (maxWaitSeconds : Int)
    (fuel calls : Nat) (waitTimeSeconds : Int)
    (hret : (WaitForInstanceState.loop GetNameForInstanceStateName client instanceId
      targetState maxWaitSeconds fuel false calls waitTimeSeconds).result ≠ none)
    (more : Nat) :
    WaitForInstanceState.loop GetNameForInstanceStateName client instanceId targetState
      maxWaitSeconds (fuel + more) false calls waitTimeSeconds
      = WaitForInstanceState.loop GetNameForInstanceStateName client instanceId targetState
          maxWaitSeconds fuel false calls waitTimeSeconds := by
  refine WaitForInstanceState_loop_induct GetNameForInstanceStateName client instanceId
    targetState maxWaitSeconds (fun fuel calls w =>
      (WaitForInstanceState.loop GetNameForInstanceStateName client instanceId
        targetState maxWaitSeconds fuel false calls w).result ≠ none →
      WaitForInstanceState.loop GetNameForInstanceStateName client instanceId targetState
        maxWaitSeconds (fuel + more) false calls w
        = WaitForInstanceState.loop GetNameForInstanceStateName client instanceId
            targetState maxWaitSeconds fuel false calls w)
    ?_ ?_ ?_ ?_ ?_ fuel calls waitTimeSeconds hret
  · intro fuel calls w h _
    rw [WaitForInstanceState_loop_exit _ _ _ _ _ _ _ _ h,
      WaitForInstanceState_loop_exit _ _ _ _ _ _ _ _ h]
  · intro calls w h hr
    rw [WaitForInstanceState_loop_running _ _ _ _ _ _ _ h] at hr
    exact absurd rfl hr
  · intro fuel calls w h hs _
    rw [show fuel + 1 + more = fuel + more + 1 by omega,
      WaitForInstanceState_loop_hit _ _ _ _ _ _ _ _ h hs,
      WaitForInstanceState_loop_hit _ _ _ _ _ _ _ _ h hs]
  · intro fuel calls w h hs he _
    rw [show fuel + 1 + more = fuel + more + 1 by omega,
      WaitForInstanceState_loop_error _ _ _ _ _ _ _ _ h hs he,
      WaitForInstanceState_loop_error _ _ _ _ _ _ _ _ h hs he]
  · intro fuel calls w h hs he ih hr
    rw [WaitForInstanceState_loop_wait _ _ _ _ _ _ _ _ h hs he, result_after] at hr
    rw [show fuel + 1 + more = fuel + more + 1 by omega,
      WaitForInstanceState_loop_wait _ _ _ _ _ _ _ _ h hs he,
      WaitForInstanceState_loop_wait _ _ _ _ _ _ _ _ h hs he, ih hr]

/-! ## Failed polls of `WaitForInstanceState` -/

/-- A failed poll makes `GetInstanceState` return the empty string. -/
theorem GetInstanceState_of_pollFailed {InstanceStateName EC2Errors : Type}
    (GetNameForInstanceStateName : InstanceStateName → String)
    (client : Nat → DescribeInstancesOutcome InstanceStateName EC2Errors)
    (instanceId : String) (k : Nat) (hfail : pollFailed (client k) = true) :
    (GetInstanceState GetNameForInstanceStateName client k instanceId).result = "" := by
  unfold GetInstanceState
  split
  · rename_i reservations heq
    split
    · rename_i reservation rest
      split
      · rename_i inst others hinst
        rw [heq] at hfail
        simp [pollFailed, hinst] at hfail
      · rfl
    · rfl
  · rfl

/-- For a non-empty `targetState`, a failed poll makes the loop return `false`, for every
budget and every counter value. -/
theorem WaitForInstanceState_loop_false_of_pollFailed
    {InstanceStateName EC2Errors : Type}
    (GetNameForInstanceStateName : InstanceStateName → String)
    (client : Nat → DescribeInstancesOutcome InstanceStateName EC2Errors)
    (instanceId targetState : String) (maxWaitSeconds : Int)
    (htarget : targetState ≠ "") (fuel calls : Nat) (waitTimeSeconds : Int) :
    ∀ k, k < requests (WaitForInstanceState.loop GetNameForInstanceStateName client
        instanceId targetState maxWaitSeconds fuel false calls waitTimeSeconds).trace →
      pollFailed (client (calls + k)) = true →
      (WaitForInstanceState.loop GetNameForInstanceStateName client instanceId targetState
        maxWaitSeconds fuel false calls waitTimeSeconds).result = some false := by
  refine WaitForInstanceState_loop_induct GetNameForInstanceStateName client instanceId
    targetState maxWaitSeconds (fun fuel calls w =>
      ∀ k, k < requests (WaitForInstanceState.loop GetNameForInstanceStateName client
        instanceId targetState maxWaitSeconds fuel false calls w).trace →
      pollFailed (client (calls + k)) = true →
      (WaitForInstanceState.loop GetNameForInstanceStateName client instanceId targetState
        maxWaitSeconds fuel false calls w).result = some false)
    ?_ ?_ ?_ ?_ ?_ fuel calls waitTimeSeconds
  · intro fuel calls w h k hk _
    rw [WaitForInstanceState_loop_exit _ _ _ _ _ _ _ _ h] at hk
    simp only [requests] at hk
    omega
  · intro calls w h k hk _
    rw [WaitForInstanceState_loop_running _ _ _ _ _ _ _ h] at hk
    simp only [requests] at hk
    omega
  · intro fuel calls w h hs k hk hf
    rw [WaitForInstanceState_loop_hit _ _ _ _ _ _ _ _ h hs, GetInstanceState_requests] at hk
    have hk0 : k = 0 := by omega
    subst hk0
    have := GetInstanceState_of_pollFailed GetNameForInstanceStateName client instanceId _ hf
    rw [Nat.add_zero, hs] at this
    exact absurd this htarget
  · intro fuel calls w h hs he k _ _
    rw [WaitForInstanceState_loop_error _ _ _ _ _ _ _ _ h hs he]
  · intro fuel calls w h hs he ih k hk hf
    rw [WaitForInstanceState_loop_wait _ _ _ _ _ _ _ _ h hs he, requests_after,
      WaitForInstanceState_requests_step] at hk
    rw [WaitForInstanceState_loop_wait _ _ _ _ _ _ _ _ h hs he, result_after]
    cases k with
    | zero =>
      have := GetInstanceState_of_pollFailed GetNameForInstanceStateName client instanceId
        _ hf
      rw [Nat.add_zero] at this
      exact absurd this he
    | succ k =>
      exact ih k (by omega) (by rwa [show calls + 1 + k = calls + (k + 1) by omega])

/-! ## The loop of `WaitForInstanceState` when the counter overflows

With `maxWaitSeconds = 2147483647` the counter reaches 2147483640 after poll number
214748363, is still below the budget, and wraps to -2147483646 after poll number
214748364.  It only takes even values, so it never reaches 2147483647. -/

/-- After up to 214748366 polls the counter of `WaitForInstanceState` is below 2147483647:
it is `10 * calls` up to 2147483640 and negative afterwards. -/
theorem WaitForInstanceState_counter_lt (calls : Nat) (h : calls ≤ 214748366) :
    wrapInt32 (10 * (calls : Int)) < 2147483647 := by
  by_cases hc : calls ≤ 214748364
  · rw [wrapInt32_of_fits _ (by omega) (by omega)]
    omega
  · rw [wrapInt32_of_above _ (by omega) (by omega)]
    omega

theorem GetInstanceState_pendingUntil (n calls : Nat) :
    (GetInstanceState id (pendingUntil n) calls "i-0abc").result
      = if calls < n then "pending" else "running" := by
  by_cases h : calls < n <;> simp [GetInstanceState, pendingUntil, h]

/-- The instance is `running` only after the budget: the loop polls once more and returns
`true`. -/
theorem WaitForInstanceState_loop_past_budget (fuel calls : Nat)
    (hfuel : calls + fuel = 214748366) (hcalls : calls ≤ 214748365) :
    (WaitForInstanceState.loop id (pendingUntil 214748365) "i-0abc" "running" 2147483647
      fuel false calls (wrapInt32 (10 * (calls : Int)))).result = some true ∧
    requests (WaitForInstanceState.loop id (pendingUntil 214748365) "i-0abc" "running"
      2147483647 fuel false calls (wrapInt32 (10 * (calls : Int)))).trace = fuel := by
  induction fuel generalizing calls with
  | zero => omega
  | succ fuel ih =>
    have hw := WaitForInstanceState_counter_lt calls (by omega)
    have hstate := GetInstanceState_pendingUntil 214748365 calls
    by_cases hc : calls < 214748365
    · rw [if_pos hc] at hstate
      rw [WaitForInstanceState_loop_wait id _ _ "running" _ _ _ _ hw
          (by rw [hstate]; decide) (by rw [hstate]; decide),
        wrapInt32_add, show 10 * (calls : Int) + 10 = 10 * ((calls + 1 : Nat) : Int) by
          push_cast; ring, result_after, requests_after,
        WaitForInstanceState_requests_step]
      obtain ⟨h1, h2⟩ := ih (calls + 1) (by omega) (by omega)
      exact ⟨h1, by rw [h2]; omega⟩
    · rw [if_neg hc] at hstate
      rw [WaitForInstanceState_loop_hit id _ _ "running" _ _ _ _ hw hstate,
        GetInstanceState_requests]
      exact ⟨rfl, by omega⟩

/-- The instance stays `pending`: whatever the number of iterations, the loop has not
returned and has polled at every one of them. -/
theorem WaitForInstanceState_loop_never_returns (fuel calls : Nat) (waitTimeSeconds : Int)
    (heven : waitTimeSeconds % 2 = 0) (hlo : -2147483648 ≤ waitTimeSeconds)
    (hhi : waitTimeSeconds ≤ 2147483647) :
    (WaitForInstanceState.loop id alwaysPending "i-0abc" "running" 2147483647
      fuel false calls waitTimeSeconds).result = none ∧
    requests (WaitForInstanceState.loop id alwaysPending "i-0abc" "running" 2147483647
      fuel false calls waitTimeSeconds).trace = fuel := by
  induction fuel generalizing calls waitTimeSeconds with
  | zero =>
    rw [WaitForInstanceState_loop_running _ _ _ _ _ _ _ (by omega)]
    exact ⟨rfl, rfl⟩
  | succ fuel ih =>
    have hstate : (GetInstanceState id alwaysPending calls "i-0abc").result = "pending" := by
      simp [GetInstanceState, alwaysPending]
    rw [WaitForInstanceState_loop_wait id _ _ "running" _ _ _ _ (by omega)
        (by rw [hstate]; decide) (by rw [hstate]; decide), result_after, requests_after,
      WaitForInstanceState_requests_step]
    have hnext : wrapInt32 (waitTimeSeconds + 10) % 2 = 0 ∧
        -2147483648 ≤ wrapInt32 (waitTimeSeconds + 10) ∧
        wrapInt32 (waitTimeSeconds + 10) ≤ 2147483647 := by
      by_cases hfit : waitTimeSeconds + 10 ≤ 2147483647
      · rw [wrapInt32_of_fits _ (by omega) hfit]
        omega
      · rw [wrapInt32_of_above _ (by omega) (by omega)]
        omega
    obtain ⟨h1, h2⟩ := ih (calls + 1) _ hnext.1 hnext.2.1 hnext.2.2
    exact ⟨h1, by rw [h2]; omega⟩

/-! ## Arithmetic of the poll count -/

/-- If the last of `n` polls started before the budget `m` ran out, polls being `d`
seconds apart, then `n` is at most `m / d` rounded up (and at most 0 for a negative `m`). -/
theorem polls_le_ceil (n : Nat) (m d : Int) (hd : 0 < d)
    (h : 0 < n → d * ((n : Int) - 1) < m) :
    (n : Int) ≤ ⌈((max m 0 : Int) : ℚ) / (d : ℚ)⌉ := by
  have hd' : (0 : ℚ) < (d : ℚ) := by exact_mod_cast hd
  have hmax : (m : ℚ) ≤ ((max m 0 : Int) : ℚ) := by exact_mod_cast le_max_left m 0
  have hmax0 : (0 : ℚ) ≤ ((max m 0 : Int) : ℚ) := by exact_mod_cast le_max_right m 0
  rcases Nat.eq_zero_or_pos n with h0 | hpos
  · subst h0
    have : (0 : ℚ) ≤ ((max m 0 : Int) : ℚ) / (d : ℚ) := div_nonneg hmax0 hd'.le
    simpa using Int.ceil_nonneg this
  · have h1 : ((d * ((n : Int) - 1) : Int) : ℚ) < (m : ℚ) := by exact_mod_cast h hpos
    have h2 : (n : Int) - 1 < ⌈((max m 0 : Int) : ℚ) / (d : ℚ)⌉ := by
      rw [Int.lt_ceil, lt_div_iff₀ hd']
      push_cast at h1 hmax ⊢
      have hcomm := mul_comm (d : ℚ) ((n : ℚ) - 1)
      linarith
    omega

theorem totalSleep_replicate {Request : Type} (t : List (Event Request)) (d : Nat)
    (h : sleepDurations t = List.replicate (sleepDurations t).length d) :
    totalSleep t = (sleepDurations t).length * d := by
  unfold totalSleep
  rw [h, List.sum_replicate]
  simp

/-! ## The polling loops while the counter does not overflow

What the loops do for `maxWaitSeconds ≤ 2147483645` (`WaitForTableState`) and
`maxWaitSeconds ≤ 2147483640` (`WaitForInstanceState`), where the counter never exceeds
`maxWaitSeconds` rounded up to a multiple of the interval. -/

/-- For `maxWaitSeconds ≤ 2147483645` and fuel for the whole budget, `WaitForTableState`
returns; poll `k` is performed exactly when `5 * k < maxWaitSeconds` and no earlier poll
ended the loop, and the result is `true` exactly when a performed poll shows the target. -/
theorem WaitForTableState_true_iff_of_le {TableStatus : Type}
    (GetNameForTableStatus : TableStatus → String)
    (client : Nat → DescribeTableOutcome TableStatus)
    (tableName targetState : String) (maxWaitSeconds : Int) (fuel : Nat)
    (hmax : maxWaitSeconds ≤ 2147483645) (hfuel : maxWaitSeconds ≤ 5 * (fuel : Int)) :
    (WaitForTableState GetNameForTableStatus client tableName targetState maxWaitSeconds
      fuel).result ≠ none ∧
    (∀ k : Nat,
      k < requests (WaitForTableState GetNameForTableStatus client tableName targetState
            maxWaitSeconds fuel).trace ↔
        (5 * (k : Int) < maxWaitSeconds ∧
          ∀ j, j < k →
            tableEndsLoop GetNameForTableStatus targetState (client j) = false)) ∧
    ((WaitForTableState GetNameForTableStatus client tableName targetState
          maxWaitSeconds fuel).result = some true ↔
      ∃ k, k < requests (WaitForTableState GetNameForTableStatus client tableName
            targetState maxWaitSeconds fuel).trace ∧
        tableReached GetNameForTableStatus targetState (client k) = true) := by
  have hret := WaitForTableState_loop_returns GetNameForTableStatus client ⟨tableName⟩
    targetState maxWaitSeconds hmax fuel 0 0 le_rfl rfl (by simpa using hfuel)
  have hreq := WaitForTableState_loop_requests_iff GetNameForTableStatus client ⟨tableName⟩
    targetState maxWaitSeconds hmax fuel 0 0 le_rfl rfl
  have hres := WaitForTableState_loop_result_iff GetNameForTableStatus client ⟨tableName⟩
    targetState maxWaitSeconds fuel 0 0
  simp only [Nat.zero_add, Int.zero_add] at hreq hres
  refine ⟨hret, fun k => ?_, hres⟩
  unfold WaitForTableState
  rw [hreq k]
  constructor
  · rintro ⟨_, h1, h2⟩
    exact ⟨h1, h2⟩
  · rintro ⟨h1, h2⟩
    exact ⟨by omega, h1, h2⟩

/-- For `maxWaitSeconds ≤ 2147483640` and fuel for the whole budget, `WaitForInstanceState`
returns; poll `k` is performed exactly when `10 * k < maxWaitSeconds` and no earlier poll
ended the loop, and the result is `true` exactly when a performed poll returned
`targetState`. -/
theorem WaitForInstanceState_true_iff_of_le {InstanceStateName EC2Errors : Type}
    (GetNameForInstanceStateName : InstanceStateName → String)
    (client : Nat → DescribeInstancesOutcome InstanceStateName EC2Errors)
    (instanceId targetState : String) (maxWaitSeconds : Int) (fuel : Nat)
    (hmax : maxWaitSeconds ≤ 2147483640) (hfuel : maxWaitSeconds ≤ 10 * (fuel : Int)) :
    (WaitForInstanceState GetNameForInstanceStateName client instanceId targetState
      maxWaitSeconds fuel).result ≠ none ∧
    (∀ k : Nat,
      k < requests (WaitForInstanceState GetNameForInstanceStateName client instanceId
            targetState maxWaitSeconds fuel).trace ↔
        (10 * (k : Int) < maxWaitSeconds ∧
          ∀ j, j < k →
            (GetInstanceState GetNameForInstanceStateName client j instanceId).result
                ≠ targetState ∧
            (GetInstanceState GetNameForInstanceStateName client j instanceId).result
                ≠ "")) ∧
    ((WaitForInstanceState GetNameForInstanceStateName client instanceId targetState
          maxWaitSeconds fuel).result = some true ↔
      ∃ k, k < requests (WaitForInstanceState GetNameForInstanceStateName client
            instanceId targetState maxWaitSeconds fuel).trace ∧
        (GetInstanceState GetNameForInstanceStateName client k instanceId).result
          = targetState) := by
  have hret := WaitForInstanceState_loop_returns GetNameForInstanceStateName client
    instanceId targetState maxWaitSeconds hmax fuel 0 0 le_rfl rfl (by simpa using hfuel)
  have hreq := WaitForInstanceState_loop_requests_iff GetNameForInstanceStateName client
    instanceId targetState maxWaitSeconds hmax fuel 0 0 le_rfl rfl
  have hres := WaitForInstanceState_loop_result_iff GetNameForInstanceStateName client
    instanceId targetState maxWaitSeconds fuel 0 0
  simp only [Nat.zero_add, Int.zero_add] at hreq hres
  refine ⟨hret, fun k => ?_, hres⟩
  unfold WaitForInstanceState
  rw [hreq k]
  constructor
  · rintro ⟨_, h1, h2⟩
    exact ⟨h1, h2⟩
  · rintro ⟨h1, h2⟩
    exact ⟨by omega, h1, h2⟩

/-- While the counter does not overflow, the loops poll at most
`⌈max(maxWaitSeconds, 0) / 5⌉` and `⌈max(maxWaitSeconds, 0) / 10⌉` times, whatever the
fuel. -/
theorem wait_loops_poll_bound_of_le {TableStatus InstanceStateName EC2Errors : Type}
    (GetNameForTableStatus : TableStatus → String)
    (tableClient : Nat → DescribeTableOutcome TableStatus)
    (GetNameForInstanceStateName : InstanceStateName → String)
    (instanceClient : Nat → DescribeInstancesOutcome InstanceStateName EC2Errors)
    (name targetState : String) (maxWaitSeconds : Int) (fuel : Nat) :
    (maxWaitSeconds ≤ 2147483645 →
      (requests (WaitForTableState GetNameForTableStatus tableClient name targetState
        maxWaitSeconds fuel).trace : Int) ≤ ⌈((max maxWaitSeconds 0 : Int) : ℚ) / 5⌉) ∧
    (maxWaitSeconds ≤ 2147483640 →
      (requests (WaitForInstanceState GetNameForInstanceStateName instanceClient name
        targetState maxWaitSeconds fuel).trace : Int)
          ≤ ⌈((max maxWaitSeconds 0 : Int) : ℚ) / 10⌉) := by
  constructor
  · intro hmax
    have h := polls_le_ceil (requests (WaitForTableState GetNameForTableStatus tableClient
      name targetState maxWaitSeconds fuel).trace) maxWaitSeconds 5 (by norm_num)
      (fun hpos => by
        have := (WaitForTableState_loop_requests_iff GetNameForTableStatus tableClient
          ⟨name⟩ targetState maxWaitSeconds hmax fuel 0 0 le_rfl rfl
          (requests (WaitForTableState GetNameForTableStatus tableClient name targetState
            maxWaitSeconds fuel).trace - 1)).1
            (by unfold WaitForTableState at hpos ⊢; omega)
        have h1 := this.2.1
        rw [Nat.cast_sub hpos] at h1
        simpa using h1)
    simpa using h
  · intro hmax
    have h := polls_le_ceil (requests (WaitForInstanceState GetNameForInstanceStateName
      instanceClient name targetState maxWaitSeconds fuel).trace) maxWaitSeconds 10
      (by norm_num) (fun hpos => by
        have := (WaitForInstanceState_loop_requests_iff GetNameForInstanceStateName
          instanceClient name targetState maxWaitSeconds hmax fuel 0 0 le_rfl rfl
          (requests (WaitForInstanceState GetNameForInstanceStateName instanceClient name
            targetState maxWaitSeconds fuel).trace - 1)).1
            (by unfold WaitForInstanceState at hpos ⊢; omega)
        have h1 := this.2.1
        rw [Nat.cast_sub hpos] at h1
        simpa using h1)
    simpa using h

/-- While the counter does not overflow, `WaitForTableState` sleeps less than
`max maxWaitSeconds 0 + 5` seconds in total. -/
theorem WaitForTableState_totalSleep_lt {TableStatus : Type}
    (GetNameForTableStatus : TableStatus → String)
    (client : Nat → DescribeTableOutcome TableStatus)
    (tableName targetState : String) (maxWaitSeconds : Int) (fuel : Nat)
    (hmax : maxWaitSeconds ≤ 2147483645) :
    (totalSleep (WaitForTableState GetNameForTableStatus client tableName targetState
      maxWaitSeconds fuel).trace : Int) < max maxWaitSeconds 0 + 5 := by
  have hs := WaitForTableState_loop_sleeps GetNameForTableStatus client ⟨tableName⟩
    targetState maxWaitSeconds fuel 0 0
  have hr := WaitForTableState_loop_requests_iff GetNameForTableStatus client ⟨tableName⟩
    targetState maxWaitSeconds hmax fuel 0 0 le_rfl rfl
  unfold WaitForTableState
  rw [totalSleep_replicate _ 5 hs.1]
  have h0 := le_max_left maxWaitSeconds 0
  have h1 := le_max_right maxWaitSeconds 0
  rcases Nat.eq_zero_or_pos (requests (WaitForTableState.loop GetNameForTableStatus client
    ⟨tableName⟩ targetState maxWaitSeconds fuel false 0 0).trace) with hz | hpos
  · have := hs.2
    rw [hz] at this
    have hl := Nat.le_zero.1 this
    rw [hl]
    push_cast
    omega
  · have := ((hr _).1 (Nat.sub_lt hpos Nat.one_pos)).2.1
    rw [Nat.cast_sub hpos] at this
    have hle : ((sleepDurations (WaitForTableState.loop GetNameForTableStatus client
      ⟨tableName⟩ targetState maxWaitSeconds fuel false 0 0).trace).length : Int) ≤
      (requests (WaitForTableState.loop GetNameForTableStatus client
      ⟨tableName⟩ targetState maxWaitSeconds fuel false 0 0).trace : Int) := by
        exact_mod_cast hs.2
    push_cast at this ⊢
    omega

/-- While the counter does not overflow, `WaitForInstanceState` sleeps less than
`max maxWaitSeconds 0 + 10` seconds in total. -/
theorem WaitForInstanceState_totalSleep_lt {InstanceStateName EC2Errors : Type}
    (GetNameForInstanceStateName : InstanceStateName → String)
    (client : Nat → DescribeInstancesOutcome InstanceStateName EC2Errors)
    (instanceId targetState : String) (maxWaitSeconds : Int) (fuel : Nat)
    (hmax : maxWaitSeconds ≤ 2147483640) :
    (totalSleep (WaitForInstanceState GetNameForInstanceStateName client instanceId
      targetState maxWaitSeconds fuel).trace : Int) < max maxWaitSeconds 0 + 10 := by
  have hs := WaitForInstanceState_loop_sleeps GetNameForInstanceStateName client instanceId
    targetState maxWaitSeconds fuel 0 0
  have hr := WaitForInstanceState_loop_requests_iff GetNameForInstanceStateName client
    instanceId targetState maxWaitSeconds hmax fuel 0 0 le_rfl rfl
  unfold WaitForInstanceState
  rw [totalSleep_replicate _ 10 hs.1]
  have h0 := le_max_left maxWaitSeconds 0
  have h1 := le_max_right maxWaitSeconds 0
  rcases Nat.eq_zero_or_pos (requests (WaitForInstanceState.loop GetNameForInstanceStateName
    client instanceId targetState maxWaitSeconds fuel false 0 0).trace) with hz | hpos
  · have := hs.2
    rw [hz] at this
    have hl := Nat.le_zero.1 this
    rw [hl]
    push_cast
    omega
  · have := ((hr _).1 (Nat.sub_lt hpos Nat.one_pos)).2.1
    rw [Nat.cast_sub hpos] at this
    have hle : ((sleepDurations (WaitForInstanceState.loop GetNameForInstanceStateName
      client instanceId targetState maxWaitSeconds fuel false 0 0).trace).length : Int) ≤
      (requests (WaitForInstanceState.loop GetNameForInstanceStateName
      client instanceId targetState maxWaitSeconds fuel false 0 0).trace : Int) := by
        exact_mod_cast hs.2
    push_cast at this ⊢
    omega

/-- For a non-empty `targetState`, a failed poll makes `WaitForInstanceState` return
`false`. -/
theorem WaitForInstanceState_false_of_pollFailed {InstanceStateName EC2Errors : Type}
    (GetNameForInstanceStateName : InstanceStateName → String)
    (client : Nat → DescribeInstancesOutcome InstanceStateName EC2Errors)
    (instanceId targetState : String) (maxWaitSeconds : Int) (fuel k : Nat)
    (htarget : targetState ≠ "")
    (hcall : k < requests (WaitForInstanceState GetNameForInstanceStateName client
      instanceId targetState maxWaitSeconds fuel).trace)
    (hfail : pollFailed (client k) = true) :
    (WaitForInstanceState GetNameForInstanceStateName client instanceId targetState
      maxWaitSeconds fuel).result = some false :=
  WaitForInstanceState_loop_false_of_pollFailed GetNameForInstanceStateName client
    instanceId targetState maxWaitSeconds htarget fuel 0 0 k hcall (by rwa [Nat.zero_add])

/-! ## Sample runs -/

/-- A table that becomes `ACTIVE` at the third poll: three requests, two sleeps of 5
seconds, result `true`. -/
theorem WaitForTableState_sample_run :
    WaitForTableState id creatingThenActive "users" "ACTIVE" 60 12 =
      ⟨some true, [.request ⟨"users"⟩, .cout "Table status: CREATING", .sleep 5,
                   .request ⟨"users"⟩, .cout "Table status: CREATING", .sleep 5,
                   .request ⟨"users"⟩, .cout "Table status: ACTIVE"]⟩ := by
  simp [WaitForTableState, WaitForTableState.loop, creatingThenActive, Run.after, wrapInt32]

/-- A table that stays `CREATING` for a budget of 10 seconds: two requests, two sleeps,
result `false`. -/
theorem WaitForTableState_sample_timeout :
    WaitForTableState id alwaysCreating "users" "ACTIVE" 10 2 =
      ⟨some false, [.request ⟨"users"⟩, .cout "Table status: CREATING", .sleep 5,
                    .request ⟨"users"⟩, .cout "Table status: CREATING", .sleep 5]⟩ := by
  simp [WaitForTableState, WaitForTableState.loop, alwaysCreating, Run.after, wrapInt32]

/-- The same run observed for one iteration only: it has not returned yet. -/
theorem WaitForTableState_sample_running :
    WaitForTableState id alwaysCreating "users" "ACTIVE" 10 1 =
      ⟨none, [.request ⟨"users"⟩, .cout "Table status: CREATING", .sleep 5]⟩ := by
  simp [WaitForTableState, WaitForTableState.loop, alwaysCreating, Run.after, wrapInt32]

/-- An instance that is `running` at the second poll: two requests, one sleep of 10
seconds, result `true`. -/
theorem WaitForInstanceState_sample_run :
    WaitForInstanceState id pendingThenRunning "i-0abc" "running" 120 12 =
      ⟨some true, [.request ⟨[⟨"instance-id", ["i-0abc"]⟩]⟩,
                   .cout "Instance i-0abc state: pending (waiting for running)", .sleep 10,
                   .request ⟨[⟨"instance-id", ["i-0abc"]⟩]⟩]⟩ := by
  simp [WaitForInstanceState, WaitForInstanceState.loop, GetInstanceState,
    pendingThenRunning, Run.after, wrapInt32]

/-- A failed `DescribeInstances` call with a non-empty target: one request, no sleep,
result `false`. -/
theorem WaitForInstanceState_sample_error :
    WaitForInstanceState id describeFails "i-0abc" "running" 120 12 =
      ⟨some false, [.request ⟨[⟨"instance-id", ["i-0abc"]⟩]⟩,
                    .cerr "Error getting instance state: Request has expired"]⟩ := by
  simp [WaitForInstanceState, WaitForInstanceState.loop, GetInstanceState, describeFails]

/-- At the overflow: entered with the counter at 2147483645 and a budget of 2147483647,
the loop of `WaitForTableState` polls, wraps the counter to -2147483646, polls again and
is still running. -/
theorem WaitForTableState_sample_overflow :
    wrapInt32 (2147483645 + 5) = -2147483646 ∧
    WaitForTableState.loop id alwaysCreating ⟨"users"⟩ "ACTIVE" 2147483647 2 false
        429496729 2147483645 =
      ⟨none, [.request ⟨"users"⟩, .cout "Table status: CREATING", .sleep 5,
              .request ⟨"users"⟩, .cout "Table status: CREATING", .sleep 5]⟩ := by
  constructor
  · decide
  · simp [WaitForTableState.loop, alwaysCreating, Run.after, wrapInt32]

/-! ## The polling loops -/

/-- C2: when the `DescribeTable` call number `k` of `WaitForTableState` fails, it is the
last call, neither a request nor a sleep follows it, and the function returns: `true`
exactly when `targetState` is `"DELETED"` and the error type is `RESOURCE_NOT_FOUND`,
`false` otherwise.  This holds for every `maxWaitSeconds` and however long the run is
observed. -/
theorem WaitForTableState_failure_stops {TableStatus : Type}
    (GetNameForTableStatus : TableStatus → String)
    (client : Nat → DescribeTableOutcome TableStatus)
    (tableName targetState : String) (maxWaitSeconds : Int) (fuel : Nat)
    (k : Nat) (error : AWSError DynamoDBErrors)
    (hcall : k < requests (WaitForTableState GetNameForTableStatus client tableName
      targetState maxWaitSeconds fuel).trace)
    (hfail : client k = .failure error) :
    requests (WaitForTableState GetNameForTableStatus client tableName targetState
      maxWaitSeconds fuel).trace = k + 1 ∧
    requests (eventsAfterRequest k (WaitForTableState GetNameForTableStatus client tableName
      targetState maxWaitSeconds fuel).trace) = 0 ∧
    sleepDurations (eventsAfterRequest k (WaitForTableState GetNameForTableStatus client
      tableName targetState maxWaitSeconds fuel).trace) = [] ∧
    ((WaitForTableState GetNameForTableStatus client tableName targetState
        maxWaitSeconds fuel).result = some true ↔
      (targetState = "DELETED" ∧
        error.errorType = DynamoDBErrors.RESOURCE_NOT_FOUND)) ∧
    ((WaitForTableState GetNameForTableStatus client tableName targetState
        maxWaitSeconds fuel).result = some false ↔
      ¬ (targetState = "DELETED" ∧
        error.errorType = DynamoDBErrors.RESOURCE_NOT_FOUND)) := by
  obtain ⟨h1, h2, h3, h4⟩ := WaitForTableState_loop_failure_stops GetNameForTableStatus
    client ⟨tableName⟩ targetState maxWaitSeconds fuel 0 0 k error hcall
    (by rwa [Nat.zero_add])
  refine ⟨h1, h2, h3, ?_, ?_⟩
  · unfold WaitForTableState
    rw [h4]
    simp
  · unfold WaitForTableState
    rw [h4]
    simp

/-- Witness for C2: the table is `DELETING` at the first poll and gone at the second. -/
theorem WaitForTableState_failure_stops_witness :
    1 < requests (WaitForTableState id deletingThenGone "users" "DELETED" 60 12).trace ∧
    deletingThenGone 1 = .failure ⟨.RESOURCE_NOT_FOUND, "Requested resource not found"⟩ ∧
    requests (WaitForTableState id deletingThenGone "users" "DELETED" 60 12).trace = 1 + 1 ∧
    requests (eventsAfterRequest 1
      (WaitForTableState id deletingThenGone "users" "DELETED" 60 12).trace) = 0 ∧
    sleepDurations (eventsAfterRequest 1
      (WaitForTableState id deletingThenGone "users" "DELETED" 60 12).trace) = [] ∧
    ((WaitForTableState id deletingThenGone "users" "DELETED" 60 12).result = some true ↔
      ("DELETED" = "DELETED" ∧
        (⟨.RESOURCE_NOT_FOUND, "Requested resource not found"⟩ :
          AWSError DynamoDBErrors).errorType = DynamoDBErrors.RESOURCE_NOT_FOUND)) ∧
    ((WaitForTableState id deletingThenGone "users" "DELETED" 60 12).result = some false ↔
      ¬ ("DELETED" = "DELETED" ∧
        (⟨.RESOURCE_NOT_FOUND, "Requested resource not found"⟩ :
          AWSError DynamoDBErrors).errorType = DynamoDBErrors.RESOURCE_NOT_FOUND)) :=
  ⟨by simp [WaitForTableState, WaitForTableState.loop, deletingThenGone, Run.after, requests,
      wrapInt32],
   by simp [deletingThenGone],
   WaitForTableState_failure_stops id deletingThenGone "users" "DELETED" 60 12 1
     ⟨.RESOURCE_NOT_FOUND, "Requested resource not found"⟩
     (by simp [WaitForTableState, WaitForTableState.loop, deletingThenGone, Run.after,
       requests, wrapInt32])
     (by simp [deletingThenGone])⟩

/-- C3 (failing input): with `maxWaitSeconds = 2147483647` and an instance that is
`pending` at polls 0 to 214748364 and `running` afterwards, no poll `k` with
`10 * k < maxWaitSeconds` returns the target; yet `WaitForInstanceState` performs poll
number 214748365, the counter having wrapped from 2147483640 to -2147483646, and returns
`true`. -/
theorem WaitForInstanceState_polls_past_budget :
    (∀ k : Nat, 10 * (k : Int) < 2147483647 →
      (GetInstanceState id (pendingUntil 214748365) k "i-0abc").result ≠ "running") ∧
    ¬ (10 * (214748365 : Int) < 2147483647) ∧
    requests (WaitForInstanceState id (pendingUntil 214748365) "i-0abc" "running" 2147483647
      214748366).trace = 214748365 + 1 ∧
    (WaitForInstanceState id (pendingUntil 214748365) "i-0abc" "running" 2147483647
      214748366).result = some true := by
  have h := WaitForInstanceState_loop_past_budget 214748366 0 (by norm_num) (by norm_num)
  rw [show wrapInt32 (10 * ((0 : Nat) : Int)) = 0 by decide] at h
  refine ⟨fun k hk => ?_, by norm_num, h.2, h.1⟩
  have hk' : k < 214748365 := by omega
  rw [GetInstanceState_pendingUntil, if_pos hk']
  decide

/-- C4 (failing input): with `targetState = ""` a poll that fails, by an error of
`DescribeInstances` or by a result without instance, makes `WaitForInstanceState`
return `true`. -/
theorem WaitForInstanceState_error_reported_as_reached :
    pollFailed (describeFails 0) = true ∧
    (WaitForInstanceState id describeFails "i-0abc" "" 120 12).result = some true ∧
    pollFailed (noInstance 0) = true ∧
    (WaitForInstanceState id noInstance "i-0abc" "" 120 12).result = some true := by
  refine ⟨rfl, ?_, rfl, ?_⟩
  · simp [WaitForInstanceState, WaitForInstanceState.loop, GetInstanceState, describeFails]
  · simp [WaitForInstanceState, WaitForInstanceState.loop, GetInstanceState, noInstance]

/-- C5 (failing input): with `maxWaitSeconds = 12` and a target that is never observed,
`WaitForTableState` returns `false` after sleeping 15 seconds in total and
`WaitForInstanceState` after sleeping 20 seconds. -/
theorem sleep_exceeds_maxWaitSeconds :
    (WaitForTableState id alwaysCreating "users" "ACTIVE" 12 3).result = some false ∧
    totalSleep (WaitForTableState id alwaysCreating "users" "ACTIVE" 12 3).trace = 15 ∧
    (WaitForInstanceState id alwaysPending "i-0abc" "running" 12 2).result = some false ∧
    totalSleep (WaitForInstanceState id alwaysPending "i-0abc" "running" 12 2).trace
      = 20 := by
  refine ⟨?_, ?_, ?_, ?_⟩
  · simp [WaitForTableState, WaitForTableState.loop, alwaysCreating, Run.after, wrapInt32]
  · simp [WaitForTableState, WaitForTableState.loop, alwaysCreating, Run.after, totalSleep,
      sleepDurations, wrapInt32]
  · simp [WaitForInstanceState, WaitForInstanceState.loop, GetInstanceState, alwaysPending,
      Run.after, wrapInt32]
  · simp [WaitForInstanceState, WaitForInstanceState.loop, GetInstanceState, alwaysPending,
      Run.after, totalSleep, sleepDurations, wrapInt32]

/-- C6 (failing input): with `maxWaitSeconds = 2147483647` and a target that is never
observed, `WaitForTableState` has made 429496731 `DescribeTable` calls, one more than
`⌈2147483647 / 5⌉ = 429496730`, and is still running; `WaitForInstanceState`, whose counter
takes only even values, never returns: after any number of iterations it has polled at each
of them and is still running. -/
theorem wait_loops_exceed_poll_bound :
    ⌈((max (2147483647 : Int) 0 : Int) : ℚ) / 5⌉ = 429496730 ∧
    requests (WaitForTableState id alwaysCreating "users" "ACTIVE" 2147483647
      429496731).trace = 429496730 + 1 ∧
    (WaitForTableState id alwaysCreating "users" "ACTIVE" 2147483647
      429496731).result = none ∧
    (∀ fuel : Nat,
      requests (WaitForInstanceState id alwaysPending "i-0abc" "running" 2147483647
        fuel).trace = fuel ∧
      (WaitForInstanceState id alwaysPending "i-0abc" "running" 2147483647
        fuel).result = none) := by
  have h := WaitForTableState_loop_keeps_polling 429496731 0 (by norm_num)
  rw [show wrapInt32 (5 * ((0 : Nat) : Int)) = 0 by decide] at h
  refine ⟨?_, h.2, h.1, fun fuel => ?_⟩
  · rw [Int.ceil_eq_iff]
    norm_num
  · have hi := WaitForInstanceState_loop_never_returns fuel 0 0 (by norm_num) (by norm_num)
      (by norm_num)
    exact ⟨hi.2, hi.1⟩

/-- C7: both loops poll at a fixed interval, whatever `maxWaitSeconds`, the responses and
the number of iterations: in the timeline of a run every poll except the last is followed
by exactly one sleep, of 5 seconds for `WaitForTableState` and of 10 seconds for
`WaitForInstanceState`, and the run performs no other sleep. -/
theorem wait_loops_fixed_interval {TableStatus InstanceStateName EC2Errors : Type}
    (GetNameForTableStatus : TableStatus → String)
    (tableClient : Nat → DescribeTableOutcome TableStatus)
    (GetNameForInstanceStateName : InstanceStateName → String)
    (instanceClient : Nat → DescribeInstancesOutcome InstanceStateName EC2Errors)
    (name targetState : String) (maxWaitSeconds : Int) (fuel : Nat) :
    (∃ n,
      timeline (WaitForTableState GetNameForTableStatus tableClient name targetState
        maxWaitSeconds fuel).trace = fixedIntervalTimeline 5 n ∨
      timeline (WaitForTableState GetNameForTableStatus tableClient name targetState
        maxWaitSeconds fuel).trace = fixedIntervalTimeline 5 n ++ [Tick.poll]) ∧
    (∃ n,
      timeline (WaitForInstanceState GetNameForInstanceStateName instanceClient name
        targetState maxWaitSeconds fuel).trace = fixedIntervalTimeline 10 n ∨
      timeline (WaitForInstanceState GetNameForInstanceStateName instanceClient name
        targetState maxWaitSeconds fuel).trace
          = fixedIntervalTimeline 10 n ++ [Tick.poll]) ∧
    sleepDurations (WaitForTableState GetNameForTableStatus tableClient name targetState
        maxWaitSeconds fuel).trace =
      List.replicate (sleepDurations (WaitForTableState GetNameForTableStatus tableClient
        name targetState maxWaitSeconds fuel).trace).length 5 ∧
    sleepDurations (WaitForInstanceState GetNameForInstanceStateName instanceClient name
        targetState maxWaitSeconds fuel).trace =
      List.replicate (sleepDurations (WaitForInstanceState GetNameForInstanceStateName
        instanceClient name targetState maxWaitSeconds fuel).trace).length 10 :=
  ⟨WaitForTableState_loop_timeline GetNameForTableStatus tableClient ⟨name⟩ targetState
      maxWaitSeconds fuel 0 0,
   WaitForInstanceState_loop_timeline GetNameForInstanceStateName instanceClient name
      targetState maxWaitSeconds fuel 0 0,
   (WaitForTableState_loop_sleeps GetNameForTableStatus tableClient ⟨name⟩ targetState
      maxWaitSeconds fuel 0 0).1,
   (WaitForInstanceState_loop_sleeps GetNameForInstanceStateName instanceClient name
      targetState maxWaitSeconds fuel 0 0).1⟩

/-! ## S3 transfers -/

/-- `DownloadFile` returns the success of `GetObject`, whatever happens to the local file;
when the local file cannot be opened for writing the file system is left as it was. -/
theorem DownloadFile_ignores_local_file {σ S3Errors : Type} (s3Client : S3Client σ S3Errors)
    (service : σ) (fs : FileSystem) (bucketName keyName localPath : String) :
    (DownloadFile s3Client service fs bucketName keyName localPath).result
      = (s3Client.GetObject service ⟨bucketName, keyName⟩).1.IsSuccess ∧
    (fs.canOpenWrite localPath = false →
      (DownloadFile s3Client service fs bucketName keyName localPath).files = fs) := by
  unfold DownloadFile
  split
  · rename_i body service' heq
    simp [heq, Outcome.IsSuccess, FileSystem.ofstreamWrite]
    intro h
    simp [h]
  · rename_i error service' heq
    simp [heq, Outcome.IsSuccess]

/-- When the local file can be opened for writing, a successful `DownloadFile` leaves the
body of the response in it. -/
theorem DownloadFile_writes_body {σ S3Errors : Type} (s3Client : S3Client σ S3Errors)
    (service : σ) (fs : FileSystem) (bucketName keyName localPath body : String)
    (hopen : fs.canOpenWrite localPath = true)
    (hget : (s3Client.GetObject service ⟨bucketName, keyName⟩).1 = .success body) :
    ((DownloadFile s3Client service fs bucketName keyName localPath).files.file
      localPath).map File.data = some body := by
  unfold DownloadFile
  split
  · rename_i body' service' heq
    rw [heq] at hget
    cases hget
    simp [FileSystem.ofstreamWrite, hopen]
  · rename_i error service' heq
    rw [heq] at hget
    cases hget

/-- `UploadText` returns the success of its `PutObject`, leaves the service in the state
after that request, and does not touch the file system. -/
theorem UploadText_run {σ S3Errors : Type} (s3Client : S3Client σ S3Errors)
    (service : σ) (fs : FileSystem) (bucketName keyName content : String) :
    (UploadText s3Client service fs bucketName keyName content).result
      = (s3Client.PutObject service ⟨bucketName, keyName, content⟩).1.IsSuccess ∧
    (UploadText s3Client service fs bucketName keyName content).service
      = (s3Client.PutObject service ⟨bucketName, keyName, content⟩).2 ∧
    (UploadText s3Client service fs bucketName keyName content).files = fs := by
  unfold UploadText
  split
  · rename_i u service' heq
    simp [heq, Outcome.IsSuccess]
  · rename_i error service' heq
    simp [heq, Outcome.IsSuccess]

/-- Upload then download is a round trip when the local file can be opened for writing:
against a store that returns for a key the body last put under it, a successful
`UploadText` followed by a successful `DownloadFile` leaves `content` in the file. -/
theorem roundtrip_of_canOpenWrite {σ S3Errors : Type} (s3Client : S3Client σ S3Errors)
    (hstore : ∀ (s : σ) (r : PutObjectRequest) (body : String),
      (s3Client.PutObject s r).1.IsSuccess = true →
      (s3Client.GetObject (s3Client.PutObject s r).2 ⟨r.bucket, r.key⟩).1 = .success body →
      body = r.body)
    (service : σ) (fs : FileSystem) (bucketName keyName content localPath : String)
    (hopen : fs.canOpenWrite localPath = true)
    (hup : (UploadText s3Client service fs bucketName keyName content).result = true)
    (hdown : (DownloadFile s3Client
      (UploadText s3Client service fs bucketName keyName content).service
      (UploadText s3Client service fs bucketName keyName content).files
      bucketName keyName localPath).result = true) :
    ((DownloadFile s3Client
      (UploadText s3Client service fs bucketName keyName content).service
      (UploadText s3Client service fs bucketName keyName content).files
      bucketName keyName localPath).files.file localPath).map File.data = some content := by
  obtain ⟨h1, h2, h3⟩ := UploadText_run s3Client service fs bucketName keyName content
  rw [h1] at hup
  rw [h2, h3] at hdown ⊢
  rw [(DownloadFile_ignores_local_file s3Client _ fs bucketName keyName localPath).1] at hdown
  cases hget : (s3Client.GetObject (s3Client.PutObject service
      ⟨bucketName, keyName, content⟩).2 ⟨bucketName, keyName⟩).1 with
  | success body =>
    have hbody := hstore service ⟨bucketName, keyName, content⟩ body hup hget
    rw [DownloadFile_writes_body s3Client _ fs bucketName keyName localPath body hopen hget,
      hbody]
  | failure error =>
    rw [hget] at hdown
    cases hdown

/-- C8 (failing input): against the object store, `UploadText` of `"hello"` returns `true`
and the following `DownloadFile` to the read-only `out.txt` returns `true`, yet `out.txt`
still holds `"old"`. -/
theorem roundtrip_fails_on_unwritable_path :
    (UploadText objectStore emptyStore sampleFiles "bucket" "test.txt" "hello").result = true ∧
    (DownloadFile objectStore
      (UploadText objectStore emptyStore sampleFiles "bucket" "test.txt" "hello").service
      (UploadText objectStore emptyStore sampleFiles "bucket" "test.txt" "hello").files
      "bucket" "test.txt" "out.txt").result = true ∧
    ((DownloadFile objectStore
      (UploadText objectStore emptyStore sampleFiles "bucket" "test.txt" "hello").service
      (UploadText objectStore emptyStore sampleFiles "bucket" "test.txt" "hello").files
      "bucket" "test.txt" "out.txt").files.file "out.txt").map File.data = some "old" := by
  simp [UploadText, DownloadFile, objectStore, emptyStore, sampleFiles,
    FileSystem.ofstreamWrite, FileSystem.canOpenWrite]

/-- C9 (failing input): `GetObject` answers with body `"new"`, the local file `out.txt`
cannot be opened for writing, and `DownloadFile` returns `true` with `out.txt` unchanged. -/
theorem DownloadFile_true_without_writing :
    sampleFiles.canOpenWrite "out.txt" = false ∧
    (objectStore.GetObject
      (fun b k => if b = "bucket" ∧ k = "report.txt" then some "new" else none)
      ⟨"bucket", "report.txt"⟩).1 = .success "new" ∧
    (DownloadFile objectStore
      (fun b k => if b = "bucket" ∧ k = "report.txt" then some "new" else none)
      sampleFiles "bucket" "report.txt" "out.txt").result = true ∧
    (DownloadFile objectStore
      (fun b k => if b = "bucket" ∧ k = "report.txt" then some "new" else none)
      sampleFiles "bucket" "report.txt" "out.txt").files.file "out.txt"
        = some ⟨"old", true, false⟩ := by
  simp [DownloadFile, objectStore, sampleFiles, FileSystem.ofstreamWrite,
    FileSystem.canOpenWrite]

/-- C10: when the file at `filePath` cannot be opened for reading, `UploadFile` returns
`false` and sends no request; when it can, `UploadFile` sends exactly one request, a
`PutObject` with the given bucket and key and the bytes of the file, and returns `true`
exactly when the outcome of that request is a success. -/
theorem UploadFile_fails_closed {σ S3Errors : Type} (s3Client : S3Client σ S3Errors)
    (service : σ) (fs : FileSystem) (bucketName keyName filePath : String) :
    (fs.openRead filePath = none →
      (UploadFile s3Client service fs bucketName keyName filePath).result = false ∧
      requestsOf (UploadFile s3Client service fs bucketName keyName filePath).trace = []) ∧
    (∀ data, fs.openRead filePath = some data →
      requestsOf (UploadFile s3Client service fs bucketName keyName filePath).trace
        = [.putObject ⟨bucketName, keyName, data⟩] ∧
      ((UploadFile s3Client service fs bucketName keyName filePath).result = true ↔
        (s3Client.PutObject service ⟨bucketName, keyName, data⟩).1.IsSuccess = true)) := by
  constructor
  · intro h
    simp [UploadFile, h, requestsOf]
  · intro data h
    unfold UploadFile
    rw [h]
    simp only
    split
    · rename_i u service' heq
      simp [heq, requestsOf, Outcome.IsSuccess]
    · rename_i error service' heq
      simp [heq, requestsOf, Outcome.IsSuccess]

/-- Witness for C10: `missing.txt` does not exist and `in.txt` holds `"payload"`. -/
theorem UploadFile_fails_closed_witness :
    sampleFiles.openRead "missing.txt" = none ∧
    ((UploadFile objectStore emptyStore sampleFiles "bucket" "key" "missing.txt").result
        = false ∧
      requestsOf (UploadFile objectStore emptyStore sampleFiles "bucket" "key"
        "missing.txt").trace = []) ∧
    sampleFiles.openRead "in.txt" = some "payload" ∧
    (requestsOf (UploadFile objectStore emptyStore sampleFiles "bucket" "key" "in.txt").trace
        = [.putObject ⟨"bucket", "key", "payload"⟩] ∧
      ((UploadFile objectStore emptyStore sampleFiles "bucket" "key" "in.txt").result = true ↔
        (objectStore.PutObject emptyStore ⟨"bucket", "key", "payload"⟩).1.IsSuccess = true)) :=
  ⟨by simp [FileSystem.openRead, sampleFiles],
   (UploadFile_fails_closed objectStore emptyStore sampleFiles "bucket" "key"
      "missing.txt").1 (by simp [FileSystem.openRead, sampleFiles]),
   by simp [FileSystem.openRead, sampleFiles],
   (UploadFile_fails_closed objectStore emptyStore sampleFiles "bucket" "key" "in.txt").2
      "payload" (by simp [FileSystem.openRead, sampleFiles])⟩

/-! ## Single-request methods: requests issued -/

/-- A trace without request events counts no request. -/
theorem requests_eq_zero {Request : Type} (t : List (Event Request))
    (h : ∀ e ∈ t, ∀ r, e ≠ Event.request r) : requests t = 0 := by
  induction t with
  | nil => rfl
  | cons e t ih =>
    have ht := ih (fun e' he' => h e' (List.mem_cons_of_mem _ he'))
    cases e with
    | request r => exact absurd rfl (h _ (List.mem_cons_self _ _) r)
    | sleep s => simpa [requests] using ht
    | cout text => simpa [requests] using ht
    | cerr text => simpa [requests] using ht

theorem ListBuckets_requests {DateTime S3Errors : Type} (ToGmtString : DateTime → String)
    (client : Unit → Outcome (List (Bucket DateTime)) (AWSError S3Errors)) :
    requests (ListBuckets ToGmtString client).trace = 1 := by
  unfold ListBuckets
  split
  · simp only [requests, Nat.add_eq_right]
    apply requests_eq_zero
    intro e he r
    simp only [List.mem_map] at he
    obtain ⟨b, _, rfl⟩ := he
    exact fun h => by cases h
  · rfl

theorem ListObjects_requests {DateTime S3Errors : Type} (ToGmtString : DateTime → String)
    (client : ListObjectsV2Request → Outcome (List (Object DateTime)) (AWSError S3Errors))
    (bucketName : String) :
    requests (ListObjects ToGmtString client bucketName).trace = 1 := by
  unfold ListObjects
  split
  · simp only [requests, Nat.add_eq_right]
    apply requests_eq_zero
    intro e he r
    simp only [List.mem_map] at he
    obtain ⟨b, _, rfl⟩ := he
    exact fun h => by cases h
  · rfl

theorem ListInstances_requests {InstanceStateName EC2Errors : Type}
    (GetNameForInstanceStateName : InstanceStateName → String)
    (client : DescribeInstancesRequest →
      Outcome (List (ReservationDetails InstanceStateName)) (AWSError EC2Errors)) :
    requests (ListInstances GetNameForInstanceStateName client).trace = 1 := by
  unfold ListInstances
  split
  · split
    · rfl
    · simp only [requests, Nat.add_eq_right]
      apply requests_eq_zero
      intro e he r
      simp only [List.mem_flatten, List.mem_map] at he
      obtain ⟨l, ⟨reservation, _, rfl⟩, he⟩ := he
      simp only [List.mem_flatten, List.mem_map] at he
      obtain ⟨l', ⟨inst, _, rfl⟩, he⟩ := he
      simp only [ListInstances.printInstance, List.mem_cons, List.mem_singleton,
        List.mem_nil_iff, or_false] at he
      rcases he with rfl | rfl | rfl | rfl | rfl <;> exact fun h => by cases h
  · rfl

theorem ScanTable_printItems_requests {Request : Type} (items : List Item) :
    requests (ScanTable.printItems items : Run Request (Except String Unit)).trace = 0 := by
  induction items with
  | nil => rfl
  | cons item rest ih =>
    unfold ScanTable.printItems
    split
    · rw [requests_after, ih]
      rfl
    · rfl

theorem ScanTable_requests
    (client : ScanRequest → Outcome (List Item) (AWSError DynamoDBErrors))
    (tableName : String) :
    requests (ScanTable client tableName).trace = 1 := by
  unfold ScanTable
  split
  · split
    · rfl
    · rw [requests_after, ScanTable_printItems_requests]
      rfl
  · rfl

theorem GetItem_requests
    (client : GetItemRequest → Outcome Item (AWSError DynamoDBErrors))
    (tableName id : String) :
    requests (GetItem client tableName id).trace = 1 := by
  unfold GetItem
  split
  · split
    · split
      · rfl
      · split
        · rfl
        · split <;> rfl
    · rfl
  · rfl

theorem requests_eq_length_requestsOf {Request : Type} (t : List (Event Request)) :
    requests t = (requestsOf t).length := by
  induction t with
  | nil => rfl
  | cons e t ih => cases e <;> simp [requests, requestsOf, ih]

/-! ## Single-request methods: request sent and value returned -/

theorem CreateBucket_run {BucketLocationConstraint Result S3Errors : Type}
    (GetBucketLocationConstraintForName : String → BucketLocationConstraint)
    (client : CreateBucketRequest BucketLocationConstraint → Outcome Result (AWSError S3Errors))
    (bucketName region : String) :
    requestsOf (CreateBucket GetBucketLocationConstraintForName client bucketName region).trace
      = [CreateBucket.request GetBucketLocationConstraintForName bucketName region] ∧
    (CreateBucket GetBucketLocationConstraintForName client bucketName region).result
      = (client (CreateBucket.request GetBucketLocationConstraintForName bucketName
          region)).IsSuccess := by
  cases h : client (CreateBucket.request GetBucketLocationConstraintForName bucketName region)
    <;> simp [CreateBucket, h, requestsOf, Outcome.IsSuccess]

theorem DeleteBucket_run {Result S3Errors : Type}
    (client : DeleteBucketRequest → Outcome Result (AWSError S3Errors))
    (bucketName : String) :
    requestsOf (DeleteBucket client bucketName).trace = [⟨bucketName⟩] ∧
    (DeleteBucket client bucketName).result = (client ⟨bucketName⟩).IsSuccess := by
  cases h : client ⟨bucketName⟩ <;> simp [DeleteBucket, h, requestsOf, Outcome.IsSuccess]

theorem DeleteObject_run {Result S3Errors : Type}
    (client : DeleteObjectRequest → Outcome Result (AWSError S3Errors))
    (bucketName keyName : String) :
    requestsOf (DeleteObject client bucketName keyName).trace = [⟨bucketName, keyName⟩] ∧
    (DeleteObject client bucketName keyName).result
      = (client ⟨bucketName, keyName⟩).IsSuccess := by
  cases h : client ⟨bucketName, keyName⟩ <;>
    simp [DeleteObject, h, requestsOf, Outcome.IsSuccess]

theorem UploadText_requestsOf {σ S3Errors : Type} (s3Client : S3Client σ S3Errors)
    (service : σ) (fs : FileSystem) (bucketName keyName content : String) :
    requestsOf (UploadText s3Client service fs bucketName keyName content).trace
      = [.putObject ⟨bucketName, keyName, content⟩] := by
  unfold UploadText
  split <;> rfl

theorem DownloadFile_requestsOf {σ S3Errors : Type} (s3Client : S3Client σ S3Errors)
    (service : σ) (fs : FileSystem) (bucketName keyName localPath : String) :
    requestsOf (DownloadFile s3Client service fs bucketName keyName localPath).trace
      = [.getObject ⟨bucketName, keyName⟩] := by
  unfold DownloadFile
  split <;> rfl

theorem UploadFile_requests_le {σ S3Errors : Type} (s3Client : S3Client σ S3Errors)
    (service : σ) (fs : FileSystem) (bucketName keyName filePath : String) :
    requests (UploadFile s3Client service fs bucketName keyName filePath).trace ≤ 1 := by
  unfold UploadFile
  split
  · simp [requests]
  · split <;> simp [requests]

theorem StartInstance_run {Result EC2Errors : Type}
    (client : StartInstancesRequest → Outcome Result (AWSError EC2Errors))
    (instanceId : String) :
    requestsOf (StartInstance client instanceId).trace = [⟨[instanceId]⟩] ∧
    (StartInstance client instanceId).result = (client ⟨[instanceId]⟩).IsSuccess := by
  cases h : client ⟨[instanceId]⟩ <;> simp [StartInstance, h, requestsOf, Outcome.IsSuccess]

theorem StopInstance_run {Result EC2Errors : Type}
    (client : StopInstancesRequest → Outcome Result (AWSError EC2Errors))
    (instanceId : String) :
    requestsOf (StopInstance client instanceId).trace = [⟨[instanceId]⟩] ∧
    (StopInstance client instanceId).result = (client ⟨[instanceId]⟩).IsSuccess := by
  cases h : client ⟨[instanceId]⟩ <;> simp [StopInstance, h, requestsOf, Outcome.IsSuccess]

theorem TerminateInstance_run {Result EC2Errors : Type}
    (client : TerminateInstancesRequest → Outcome Result (AWSError EC2Errors))
    (instanceId : String) :
    requestsOf (TerminateInstance client instanceId).trace = [⟨[instanceId]⟩] ∧
    (TerminateInstance client instanceId).result = (client ⟨[instanceId]⟩).IsSuccess := by
  cases h : client ⟨[instanceId]⟩ <;>
    simp [TerminateInstance, h, requestsOf, Outcome.IsSuccess]

theorem LaunchInstance_requestsOf {InstanceType InstanceStateName EC2Errors : Type}
    (GetInstanceTypeForName : String → InstanceType)
    (client : RunInstancesRequest InstanceType →
      Outcome (List (Instance InstanceStateName)) (AWSError EC2Errors))
    (amiId instanceType keyName : String) :
    requestsOf (LaunchInstance GetInstanceTypeForName client amiId instanceType keyName).trace
      = [LaunchInstance.request GetInstanceTypeForName amiId instanceType keyName] := by
  unfold LaunchInstance
  split
  · split <;> rfl
  · rfl

theorem CreateTable_run {Result : Type}
    (client : CreateTableRequest → Outcome Result (AWSError DynamoDBErrors))
    (tableName : String) :
    requestsOf (CreateTable client tableName).trace = [CreateTable.request tableName] ∧
    (CreateTable client tableName).result
      = (client (CreateTable.request tableName)).IsSuccess := by
  cases h : client (CreateTable.request tableName) <;>
    simp [CreateTable, h, requestsOf, Outcome.IsSuccess]

theorem PutItem_run {Result : Type}
    (client : PutItemRequest → Outcome Result (AWSError DynamoDBErrors))
    (tableName id name : String) (age : Int) :
    requestsOf (PutItem client tableName id name age).trace
      = [PutItem.request tableName id name age] ∧
    (PutItem client tableName id name age).result
      = (client (PutItem.request tableName id name age)).IsSuccess := by
  cases h : client (PutItem.request tableName id name age) <;>
    simp [PutItem, h, requestsOf, Outcome.IsSuccess]

theorem DeleteItem_run {Result : Type}
    (client : DeleteItemRequest → Outcome Result (AWSError DynamoDBErrors))
    (tableName id : String) :
    requestsOf (DeleteItem client tableName id).trace = [⟨tableName, [("id", .S id)]⟩] ∧
    (DeleteItem client tableName id).result
      = (client ⟨tableName, [("id", .S id)]⟩).IsSuccess := by
  cases h : client ⟨tableName, [("id", .S id)]⟩ <;>
    simp [DeleteItem, h, requestsOf, Outcome.IsSuccess]

theorem DeleteTable_run {Result : Type}
    (client : DeleteTableRequest → Outcome Result (AWSError DynamoDBErrors))
    (tableName : String) :
    requestsOf (DeleteTable client tableName).trace = [⟨tableName⟩] ∧
    (DeleteTable client tableName).result = (client ⟨tableName⟩).IsSuccess := by
  cases h : client ⟨tableName⟩ <;> simp [DeleteTable, h, requestsOf, Outcome.IsSuccess]

/-! ## Sample runs of single-request methods -/

/-- Outside `us-east-1` the bucket is created with the constraint of the region. -/
theorem CreateBucket_sample_run :
    CreateBucket id (fun _ => (.success () : Outcome Unit (AWSError Unit)))
        "my-bucket" "eu-west-1" =
      ⟨true, [.request ⟨"my-bucket", some ⟨some "eu-west-1"⟩⟩,
              .cout "Created bucket: my-bucket"]⟩ := by
  simp [CreateBucket, CreateBucket.request]

/-- A scan whose second item lacks `age`: one request, the line of the first item, and
the exception of `item.at`. -/
theorem ScanTable_sample_run :
    ScanTable scanTwoItems "users" =
      ⟨.error "std::out_of_range",
       [.request ⟨"users"⟩, .cout "Items in users:",
        .cout "ID: user1, Name: Alice Smith, Age: 28"]⟩ := by
  simp [ScanTable, ScanTable.printItems, scanTwoItems, Run.after, Item.lookupAt,
    List.lookup, AttributeValue.GetS, AttributeValue.GetN]

/-! ## The manager methods -/

/-- C11: each of `CreateBucket`, `DeleteBucket`, `UploadText`, `DeleteObject`,
`StartInstance`, `StopInstance`, `TerminateInstance`, `CreateTable`, `PutItem`,
`DeleteItem` and `DeleteTable` sends one request and returns `true` exactly when the
outcome the SDK client returns for that request reports success. -/
theorem bool_methods_return_sdk_success
    {BucketLocationConstraint Result S3Errors EC2Errors σ : Type}
    (GetBucketLocationConstraintForName : String → BucketLocationConstraint)
    (createBucket :
      CreateBucketRequest BucketLocationConstraint → Outcome Result (AWSError S3Errors))
    (deleteBucket : DeleteBucketRequest → Outcome Result (AWSError S3Errors))
    (s3Client : S3Client σ S3Errors) (service : σ) (fs : FileSystem)
    (deleteObject : DeleteObjectRequest → Outcome Result (AWSError S3Errors))
    (startInstances : StartInstancesRequest → Outcome Result (AWSError EC2Errors))
    (stopInstances : StopInstancesRequest → Outcome Result (AWSError EC2Errors))
    (terminateInstances : TerminateInstancesRequest → Outcome Result (AWSError EC2Errors))
    (createTable : CreateTableRequest → Outcome Result (AWSError DynamoDBErrors))
    (putItem : PutItemRequest → Outcome Result (AWSError DynamoDBErrors))
    (deleteItem : DeleteItemRequest → Outcome Result (AWSError DynamoDBErrors))
    (deleteTable : DeleteTableRequest → Outcome Result (AWSError DynamoDBErrors))
    (bucketName region keyName content instanceId tableName id name : String) (age : Int) :
    (requestsOf (CreateBucket GetBucketLocationConstraintForName createBucket bucketName
        region).trace
        = [CreateBucket.request GetBucketLocationConstraintForName bucketName region] ∧
      ((CreateBucket GetBucketLocationConstraintForName createBucket bucketName
        region).result = true ↔
        (createBucket (CreateBucket.request GetBucketLocationConstraintForName bucketName
          region)).IsSuccess = true)) ∧
    (requestsOf (DeleteBucket deleteBucket bucketName).trace = [⟨bucketName⟩] ∧
      ((DeleteBucket deleteBucket bucketName).result = true ↔
        (deleteBucket ⟨bucketName⟩).IsSuccess = true)) ∧
    (requestsOf (UploadText s3Client service fs bucketName keyName content).trace
        = [.putObject ⟨bucketName, keyName, content⟩] ∧
      ((UploadText s3Client service fs bucketName keyName content).result = true ↔
        (s3Client.PutObject service ⟨bucketName, keyName, content⟩).1.IsSuccess = true)) ∧
    (requestsOf (DeleteObject deleteObject bucketName keyName).trace
        = [⟨bucketName, keyName⟩] ∧
      ((DeleteObject deleteObject bucketName keyName).result = true ↔
        (deleteObject ⟨bucketName, keyName⟩).IsSuccess = true)) ∧
    (requestsOf (StartInstance startInstances instanceId).trace = [⟨[instanceId]⟩] ∧
      ((StartInstance startInstances instanceId).result = true ↔
        (startInstances ⟨[instanceId]⟩).IsSuccess = true)) ∧
    (requestsOf (StopInstance stopInstances instanceId).trace = [⟨[instanceId]⟩] ∧
      ((StopInstance stopInstances instanceId).result = true ↔
        (stopInstances ⟨[instanceId]⟩).IsSuccess = true)) ∧
    (requestsOf (TerminateInstance terminateInstances instanceId).trace
        = [⟨[instanceId]⟩] ∧
      ((TerminateInstance terminateInstances instanceId).result = true ↔
        (terminateInstances ⟨[instanceId]⟩).IsSuccess = true)) ∧
    (requestsOf (CreateTable createTable tableName).trace = [CreateTable.request tableName] ∧
      ((CreateTable createTable tableName).result = true ↔
        (createTable (CreateTable.request tableName)).IsSuccess = true)) ∧
    (requestsOf (PutItem putItem tableName id name age).trace
        = [PutItem.request tableName id name age] ∧
      ((PutItem putItem tableName id name age).result = true ↔
        (putItem (PutItem.request tableName id name age)).IsSuccess = true)) ∧
    (requestsOf (DeleteItem deleteItem tableName id).trace
        = [⟨tableName, [("id", .S id)]⟩] ∧
      ((DeleteItem deleteItem tableName id).result = true ↔
        (deleteItem ⟨tableName, [("id", .S id)]⟩).IsSuccess = true)) ∧
    (requestsOf (DeleteTable deleteTable tableName).trace = [⟨tableName⟩] ∧
      ((DeleteTable deleteTable tableName).result = true ↔
        (deleteTable ⟨tableName⟩).IsSuccess = true)) := by
  have h1 := CreateBucket_run GetBucketLocationConstraintForName createBucket bucketName region
  have h2 := DeleteBucket_run deleteBucket bucketName
  have h3 := UploadText_run s3Client service fs bucketName keyName content
  have h3' := UploadText_requestsOf s3Client service fs bucketName keyName content
  have h4 := DeleteObject_run deleteObject bucketName keyName
  have h5 := StartInstance_run startInstances instanceId
  have h6 := StopInstance_run stopInstances instanceId
  have h7 := TerminateInstance_run terminateInstances instanceId
  have h8 := CreateTable_run createTable tableName
  have h9 := PutItem_run putItem tableName id name age
  have h10 := DeleteItem_run deleteItem tableName id
  have h11 := DeleteTable_run deleteTable tableName
  exact ⟨⟨h1.1, by rw [h1.2]⟩, ⟨h2.1, by rw [h2.2]⟩, ⟨h3', by rw [h3.1]⟩, ⟨h4.1, by rw [h4.2]⟩,
    ⟨h5.1, by rw [h5.2]⟩, ⟨h6.1, by rw [h6.2]⟩, ⟨h7.1, by rw [h7.2]⟩, ⟨h8.1, by rw [h8.2]⟩,
    ⟨h9.1, by rw [h9.2]⟩, ⟨h10.1, by rw [h10.2]⟩, ⟨h11.1, by rw [h11.2]⟩⟩

/-- C12: whatever the responses, every method of `S3Manager`, `EC2Manager` and
`DynamoDBManager` other than the two wait loops issues exactly one SDK client request,
except `UploadFile`, which issues at most one. -/
theorem methods_issue_one_request
    {DateTime BucketLocationConstraint Result S3Errors σ InstanceStateName InstanceType
      EC2Errors : Type}
    (ToGmtString : DateTime → String)
    (listBuckets : Unit → Outcome (List (Bucket DateTime)) (AWSError S3Errors))
    (GetBucketLocationConstraintForName : String → BucketLocationConstraint)
    (createBucket :
      CreateBucketRequest BucketLocationConstraint → Outcome Result (AWSError S3Errors))
    (deleteBucket : DeleteBucketRequest → Outcome Result (AWSError S3Errors))
    (s3Client : S3Client σ S3Errors) (service : σ) (fs : FileSystem)
    (deleteObject : DeleteObjectRequest → Outcome Result (AWSError S3Errors))
    (listObjectsV2 :
      ListObjectsV2Request → Outcome (List (Object DateTime)) (AWSError S3Errors))
    (GetNameForInstanceStateName : InstanceStateName → String)
    (describeInstances : DescribeInstancesRequest →
      Outcome (List (ReservationDetails InstanceStateName)) (AWSError EC2Errors))
    (startInstances : StartInstancesRequest → Outcome Result (AWSError EC2Errors))
    (stopInstances : StopInstancesRequest → Outcome Result (AWSError EC2Errors))
    (GetInstanceTypeForName : String → InstanceType)
    (runInstances : RunInstancesRequest InstanceType →
      Outcome (List (Instance InstanceStateName)) (AWSError EC2Errors))
    (terminateInstances : TerminateInstancesRequest → Outcome Result (AWSError EC2Errors))
    (describeStream : Nat → DescribeInstancesOutcome InstanceStateName EC2Errors)
    (calls : Nat)
    (createTable : CreateTableRequest → Outcome Result (AWSError DynamoDBErrors))
    (putItem : PutItemRequest → Outcome Result (AWSError DynamoDBErrors))
    (getItem : GetItemRequest → Outcome Item (AWSError DynamoDBErrors))
    (scan : ScanRequest → Outcome (List Item) (AWSError DynamoDBErrors))
    (deleteItem : DeleteItemRequest → Outcome Result (AWSError DynamoDBErrors))
    (deleteTable : DeleteTableRequest → Outcome Result (AWSError DynamoDBErrors))
    (bucketName region keyName filePath content localPath instanceId amiId instanceType
      sshKeyName tableName id name : String) (age : Int) :
    -- S3Manager
    requests (ListBuckets ToGmtString listBuckets).trace = 1 ∧
    requests (CreateBucket GetBucketLocationConstraintForName createBucket bucketName
      region).trace = 1 ∧
    requests (DeleteBucket deleteBucket bucketName).trace = 1 ∧
    requests (UploadFile s3Client service fs bucketName keyName filePath).trace ≤ 1 ∧
    requests (UploadText s3Client service fs bucketName keyName content).trace = 1 ∧
    requests (DownloadFile s3Client service fs bucketName keyName localPath).trace = 1 ∧
    requests (DeleteObject deleteObject bucketName keyName).trace = 1 ∧
    requests (ListObjects ToGmtString listObjectsV2 bucketName).trace = 1 ∧
    -- EC2Manager
    requests (ListInstances GetNameForInstanceStateName describeInstances).trace = 1 ∧
    requests (StartInstance startInstances instanceId).trace = 1 ∧
    requests (StopInstance stopInstances instanceId).trace = 1 ∧
    requests (LaunchInstance GetInstanceTypeForName runInstances amiId instanceType
      sshKeyName).trace = 1 ∧
    requests (TerminateInstance terminateInstances instanceId).trace = 1 ∧
    requests (GetInstanceState GetNameForInstanceStateName describeStream calls
      instanceId).trace = 1 ∧
    -- DynamoDBManager
    requests (CreateTable createTable tableName).trace = 1 ∧
    requests (PutItem putItem tableName id name age).trace = 1 ∧
    requests (GetItem getItem tableName id).trace = 1 ∧
    requests (ScanTable scan tableName).trace = 1 ∧
    requests (DeleteItem deleteItem tableName id).trace = 1 ∧
    requests (DeleteTable deleteTable tableName).trace = 1 := by
  refine ⟨ListBuckets_requests _ _, ?_, ?_, UploadFile_requests_le _ _ _ _ _ _, ?_, ?_, ?_,
    ListObjects_requests _ _ _, ListInstances_requests _ _, ?_, ?_, ?_, ?_,
    GetInstanceState_requests _ _ _ _, ?_, ?_, GetItem_requests _ _ _,
    ScanTable_requests _ _, ?_, ?_⟩
  · rw [requests_eq_length_requestsOf, (CreateBucket_run _ _ _ _).1]; rfl
  · rw [requests_eq_length_requestsOf, (DeleteBucket_run _ _).1]; rfl
  · rw [requests_eq_length_requestsOf, UploadText_requestsOf]; rfl
  · rw [requests_eq_length_requestsOf, DownloadFile_requestsOf]; rfl
  · rw [requests_eq_length_requestsOf, (DeleteObject_run _ _ _).1]; rfl
  · rw [requests_eq_length_requestsOf, (StartInstance_run _ _).1]; rfl
  · rw [requests_eq_length_requestsOf, (StopInstance_run _ _).1]; rfl
  · rw [requests_eq_length_requestsOf, LaunchInstance_requestsOf]; rfl
  · rw [requests_eq_length_requestsOf, (TerminateInstance_run _ _).1]; rfl
  · rw [requests_eq_length_requestsOf, (CreateTable_run _ _).1]; rfl
  · rw [requests_eq_length_requestsOf, (PutItem_run _ _ _ _ _).1]; rfl
  · rw [requests_eq_length_requestsOf, (DeleteItem_run _ _ _).1]; rfl
  · rw [requests_eq_length_requestsOf, (DeleteTable_run _ _).1]; rfl

/-- C13: `LaunchInstance` returns the empty string when `RunInstances` fails or succeeds
with an empty instance list, and otherwise the instance ID of the first instance of the
result. -/
theorem LaunchInstance_result {InstanceType InstanceStateName EC2Errors : Type}
    (GetInstanceTypeForName : String → InstanceType)
    (client : RunInstancesRequest InstanceType →
      Outcome (List (Instance InstanceStateName)) (AWSError EC2Errors))
    (amiId instanceType keyName : String) :
    (∀ error, client (LaunchInstance.request GetInstanceTypeForName amiId instanceType
        keyName) = .failure error →
      (LaunchInstance GetInstanceTypeForName client amiId instanceType keyName).result
        = "") ∧
    (client (LaunchInstance.request GetInstanceTypeForName amiId instanceType keyName)
        = .success [] →
      (LaunchInstance GetInstanceTypeForName client amiId instanceType keyName).result
        = "") ∧
    (∀ inst rest, client (LaunchInstance.request GetInstanceTypeForName amiId instanceType
        keyName) = .success (inst :: rest) →
      (LaunchInstance GetInstanceTypeForName client amiId instanceType keyName).result
        = inst.instanceId) := by
  refine ⟨fun error h => ?_, fun h => ?_, fun inst rest h => ?_⟩ <;>
    simp [LaunchInstance, h]

/-- Witness for C13: a failing launch, a launch of nothing, and a launch of `i-0new`. -/
theorem LaunchInstance_result_witness :
    (launchFails (LaunchInstance.request id "ami-1234" "t2.micro" "")
        = .failure ⟨(), "Insufficient capacity"⟩ ∧
      (LaunchInstance id launchFails "ami-1234" "t2.micro" "").result = "") ∧
    (launchesNothing (LaunchInstance.request id "ami-1234" "t2.micro" "") = .success [] ∧
      (LaunchInstance id launchesNothing "ami-1234" "t2.micro" "").result = "") ∧
    (launchesOne (LaunchInstance.request id "ami-1234" "t2.micro" "my-key")
        = .success [⟨"i-0new", "pending"⟩] ∧
      (LaunchInstance id launchesOne "ami-1234" "t2.micro" "my-key").result = "i-0new") :=
  ⟨⟨rfl, (LaunchInstance_result id launchFails "ami-1234" "t2.micro" "").1 _ rfl⟩,
   ⟨rfl, (LaunchInstance_result id launchesNothing "ami-1234" "t2.micro" "").2.1 rfl⟩,
   ⟨rfl, (LaunchInstance_result id launchesOne "ami-1234" "t2.micro" "my-key").2.2 _ _ rfl⟩⟩

/-- C14: the one request `CreateBucket` sends names the bucket `bucketName` and carries a
location constraint exactly when `region` is not `"us-east-1"`, namely the constraint the
SDK mapper gives for `region`; with the default region it carries the constraint for
`"us-west-2"`. -/
theorem CreateBucket_request_region {BucketLocationConstraint Result S3Errors : Type}
    (GetBucketLocationConstraintForName : String → BucketLocationConstraint)
    (client : CreateBucketRequest BucketLocationConstraint → Outcome Result (AWSError S3Errors))
    (bucketName region : String) :
    requestsOf (CreateBucket GetBucketLocationConstraintForName client bucketName region).trace
      = [CreateBucket.request GetBucketLocationConstraintForName bucketName region] ∧
    (CreateBucket.request GetBucketLocationConstraintForName bucketName region).bucket
      = bucketName ∧
    ((CreateBucket.request GetBucketLocationConstraintForName bucketName
        region).GetLocationConstraint.isSome = true ↔ region ≠ "us-east-1") ∧
    (CreateBucket.request GetBucketLocationConstraintForName bucketName
        region).GetLocationConstraint
      = (if region = "us-east-1" then none
         else some (GetBucketLocationConstraintForName region)) ∧
    requestsOf (CreateBucket GetBucketLocationConstraintForName client bucketName
        CreateBucket.defaultRegion).trace
      = [⟨bucketName, some ⟨some (GetBucketLocationConstraintForName "us-west-2")⟩⟩] := by
  refine ⟨(CreateBucket_run _ client _ _).1, ?_, ?_, ?_, ?_⟩
  · unfold CreateBucket.request
    split <;> rfl
  · by_cases h : region = "us-east-1" <;>
      simp [CreateBucket.request, CreateBucketRequest.GetLocationConstraint, h]
  · by_cases h : region = "us-east-1" <;>
      simp [CreateBucket.request, CreateBucketRequest.GetLocationConstraint, h]
  · rw [(CreateBucket_run _ client _ _).1]
    simp [CreateBucket.request, CreateBucket.defaultRegion]

/-- C15: the one request `CreateTable` sends has table name `tableName`, exactly one
attribute definition (`"id"`, type `S`), exactly one key schema element (`"id"`, key type
`HASH`), and a provisioned throughput of 5 read and 5 write capacity units. -/
theorem CreateTable_request_shape {Result : Type}
    (client : CreateTableRequest → Outcome Result (AWSError DynamoDBErrors))
    (tableName : String) :
    requestsOf (CreateTable client tableName).trace = [CreateTable.request tableName] ∧
    (CreateTable.request tableName).tableName = tableName ∧
    (CreateTable.request tableName).attributeDefinitions = [⟨"id", ScalarAttributeType.S⟩] ∧
    (CreateTable.request tableName).keySchema = [⟨"id", KeyType.HASH⟩] ∧
    (CreateTable.request tableName).provisionedThroughput = some ⟨5, 5⟩ :=
  ⟨(CreateTable_run client tableName).1, rfl, rfl, rfl, rfl⟩

end awsexamples
